import Mathlib

/-!
Verification of the mood inference and validation pipeline of a journaling
application.

The source under verification is `utils/emotion_validator.py` (lexicon,
rule-based re-detector, keyword extraction, `validate_and_fix`) and
`utils/mood_analyzer.py` (fallback classifier, model-output coercion,
`analyze_entry`).  Python floats are modelled as exact rationals (`ℚ`),
Python strings as Lean `String` (the texts and keywords involved are ASCII,
for which the modelled case functions agree with Python's), dicts keyed by
the six emotion labels as functions from `String`.  `round(x, n)` is
modelled as round-half-to-even on `ℚ`, which is Python's documented
behaviour.  Iteration order over Python dicts is insertion order; the
lists below record those orders explicitly.
-/

/-- Model of Python `str.lower` on a single ASCII character. -/
def charLower (c : Char) : Char :=
  if 'A' ≤ c ∧ c ≤ 'Z' then Char.ofNat (c.toNat + 32) else c

/-- Model of Python `str.lower` (ASCII range). -/
def pyLower (s : String) : String :=
  String.mk (s.data.map charLower)

/-- The whitespace characters recognised by Python's `str.split()` /
`str.strip()` / regex `\s` (ASCII range). -/
def isPyWspace (c : Char) : Bool :=
  decide (c = ' ' ∨ c = '\t' ∨ c = '\n' ∨ c = '\r' ∨ c = '\x0b' ∨ c = '\x0c')

/-- Characters matched by regex `\w` (ASCII range): alphanumerics and `_`. -/
def isWordChar (c : Char) : Bool :=
  c.isAlphanum || c = '_'

/-- Helper for Python `str.split()` with no separator: accumulate the current
word (in reverse) and split on whitespace runs, dropping empty pieces. -/
def splitWsAux : List Char → List Char → List String
  | [], acc => if acc.isEmpty then [] else [String.mk acc.reverse]
  | c :: cs, acc =>
    if isPyWspace c then
      if acc.isEmpty then splitWsAux cs [] else String.mk acc.reverse :: splitWsAux cs []
    else
      splitWsAux cs (c :: acc)

/-- Model of Python `str.split()` (no separator argument). -/
def pySplitWs (s : List Char) : List String :=
  splitWsAux s []

/-- Model of Python `str.strip(chars)`: remove the given characters from both
ends. -/
def pyStripChars (bad : List Char) (s : String) : String :=
  String.mk (((s.data.dropWhile (· ∈ bad)).reverse.dropWhile (· ∈ bad)).reverse)

/-- Model of Python `round` to an integer: round half to even. -/
def pyRound (x : ℚ) : ℤ :=
  let n := ⌊x⌋
  let f := x - n
  if f < 1/2 then n
  else if 1/2 < f then n + 1
  else if Even n then n else n + 1

/-- Model of Python `round(x, k)` for `k` decimal digits. -/
def roundTo (k : ℕ) (x : ℚ) : ℚ :=
  (pyRound (x * 10 ^ k) : ℚ) / 10 ^ k

/-- First-occurrence deduplication with an explicit `seen` accumulator,
mirroring the `seen`-set loops in the Python source. -/
def pdedupAux (seen : List String) : List String → List String
  | [] => []
  | x :: xs => if x ∈ seen then pdedupAux seen xs else x :: pdedupAux (x :: seen) xs

/-- Python `max(items, key=f)` over a nonempty list: returns the first item
attaining the maximum of `f` (`max` only replaces the best on a strictly
greater key). -/
def argmaxFirst (f : String → ℕ) (best : String) : List String → String
  | [] => best
  | e :: es => argmaxFirst f (if f best < f e then e else best) es

/-- The `(mood_score, dominant_emotion, confidence, keywords)` record used by
both analyzer and validator (dataclass `MoodResult` / the result dicts). -/
structure MoodResult where
  mood_score : ℚ
  dominant_emotion : String
  confidence : ℚ
  keywords : List String
deriving DecidableEq, Repr

/-! ## `utils/emotion_validator.py` -/

/-- `EMOTION_KEYWORDS` from `emotion_validator.py` (dict insertion order:
happy, sad, anxious, calm, angry, neutral). -/
def EMOTION_KEYWORDS : String → List String
  | "happy" =>
    ["happy", "joy", "joyful", "excited", "excitement", "proud", "pride",
     "wonderful", "amazing", "fantastic", "great", "excellent", "awesome",
     "brilliant", "delighted", "delight", "grateful", "gratitude", "blessed",
     "thrilled", "elated", "cheerful", "content", "pleased", "glad",
     "celebrating", "celebrate", "achievement", "accomplished", "success",
     "love", "loved", "loving", "beautiful", "incredible", "euphoric"]
  | "sad" =>
    ["sad", "sadness", "unhappy", "down", "depressed", "depression",
     "disappointed", "disappointment", "miserable", "misery", "grief",
     "grieving", "heartbroken", "devastated", "devastation", "hopeless",
     "hopelessness", "crying", "cried", "tears", "lonely", "loneliness",
     "loss", "lost", "empty", "emptiness", "heavy", "hurt", "pain",
     "rejected", "rejection", "failure", "failed", "worthless", "helpless",
     "gloomy", "melancholy", "sorrow", "sorrowful", "suffering", "suffer",
     "ache", "aching", "miss", "missing", "missed"]
  | "anxious" =>
    ["anxious", "anxiety", "worried", "worry", "worrying", "stress",
     "stressed", "stressful", "nervous", "nervousness", "overwhelmed",
     "overwhelming", "panic", "panicking", "scared", "fear", "fearful",
     "afraid", "dread", "dreading", "tense", "tension", "uneasy",
     "unease", "restless", "restlessness", "uncertain", "uncertainty",
     "overthinking", "racing", "overthink"]
  | "calm" =>
    ["calm", "peaceful", "peace", "relaxed", "relaxing", "relax",
     "serene", "serenity", "tranquil", "tranquility", "content",
     "contentment", "comfortable", "patient", "patience", "grounded",
     "present", "mindful", "mindfulness", "gentle", "stillness", "still",
     "quiet", "steady", "slow", "breathe", "breathing", "meditate",
     "meditation", "balanced", "harmony", "ease"]
  | "angry" =>
    ["angry", "anger", "furious", "fury", "rage", "raging", "mad",
     "frustrated", "frustration", "irritated", "irritation", "annoyed",
     "annoyance", "outraged", "outrage", "infuriated", "livid", "fuming",
     "resentful", "resentment", "bitter", "bitterness", "hostile",
     "hatred", "hate", "disgusted", "disgust"]
  | "neutral" =>
    ["okay", "fine", "alright", "regular", "normal", "usual", "average",
     "ordinary", "standard", "typical", "moderate", "so-so"]
  | _ => []

/-- The six emotion labels, in the insertion order of the Python dicts. -/
def allEmotions : List String :=
  ["happy", "sad", "anxious", "calm", "angry", "neutral"]

/-- The non-neutral emotion labels, in dict order (the iteration order of
`primary_counts` and of the generator in CHECK 5). -/
def nonNeutralEmotions : List String :=
  ["happy", "sad", "anxious", "calm", "angry"]

/-- `EMOTION_SCORE_RANGES` from `emotion_validator.py`; `none` models a key
outside the dict (`emotion in EMOTION_SCORE_RANGES` is `isSome`). -/
def EMOTION_SCORE_RANGES : String → Option (ℚ × ℚ)
  | "happy" => some (0.2, 1.0)
  | "calm" => some (0.1, 0.6)
  | "neutral" => some (-0.15, 0.15)
  | "anxious" => some (-0.8, -0.1)
  | "sad" => some (-0.9, -0.2)
  | "angry" => some (-0.9, -0.3)
  | _ => none

/-- `_tokenize`: lowercase, replace every character matching `[^\w\s]` by a
space, then split on whitespace. -/
def pyTokenize (text : String) : List String :=
  let lowered := pyLower text
  let cleaned := lowered.data.map (fun c => if isWordChar c || isPyWspace c then c else ' ')
  pySplitWs cleaned

/-- `_count_emotion_matches` for a single emotion: the number of keywords of
that emotion occurring in the token list (whole-word membership; repeated
occurrences of the same keyword count once since distinct keywords are
tested against the token set). -/
def countEmotionMatches (tokens : List String) (emotion : String) : ℕ :=
  ((EMOTION_KEYWORDS emotion).filter (fun kw => decide (kw ∈ tokens))).length

/-- `_detect_emotion_from_text`: dominant non-neutral emotion by keyword
count, score interpolated in that emotion's range, confidence from the match
count; `("neutral", 0.0, 0.5)` when no non-neutral keyword matches. -/
def detectEmotionFromText (text : String) : String × ℚ × ℚ :=
  let tokens := pyTokenize text
  let cnt := countEmotionMatches tokens
  let total := (nonNeutralEmotions.map cnt).sum
  if total = 0 then ("neutral", 0.0, 0.5)
  else
    let dominant := argmaxFirst cnt "happy" ["sad", "anxious", "calm", "angry"]
    let match_count := cnt dominant
    let range := (EMOTION_SCORE_RANGES dominant).getD (0, 0)
    let score_min := range.1
    let score_max := range.2
    let score_range := score_max - score_min
    let intensity := min 1.0 ((match_count : ℚ) / 5.0)
    let base_score := score_min + score_range * intensity
    let base_score := roundTo 2 (max score_min (min score_max base_score))
    let confidence := min 0.90 (0.55 + (match_count : ℚ) * 0.08)
    (dominant, base_score, confidence)

/-- The `stop_words` set of `_extract_quality_keywords` (transcribed as
written, duplicates included; only membership matters). -/
def stop_words : List String :=
  ["the", "and", "for", "are", "but", "not", "you", "all", "can",
   "had", "her", "was", "one", "our", "out", "day", "get", "has",
   "him", "his", "how", "its", "may", "now", "off", "old", "own",
   "say", "she", "too", "use", "way", "who", "with", "this", "that",
   "have", "from", "they", "will", "been", "were", "said", "each",
   "which", "their", "there", "what", "when", "where", "would",
   "make", "like", "into", "just", "know", "take", "than", "them",
   "well", "also", "back", "after", "even", "most", "such", "through",
   "those", "then", "about", "should", "since", "could", "still",
   "really", "today", "because", "right", "always", "never", "every",
   "feel", "feels", "felt", "seem", "seems", "seemed",
   "think", "thought", "trying", "tried", "want", "wanted",
   "went", "made", "came", "went", "woke", "spent", "couldn",
   "didn", "doesn", "isn", "wasn", "hasn", "haven", "hadn",
   "myself", "yourself", "himself", "herself", "itself",
   "sometimes", "something", "anything", "nothing", "everything",
   "though", "although", "while", "since", "until", "unless",
   "pass", "must", "much", "many", "more", "some", "same"]

/-- `_extract_quality_keywords`: emotion keywords found in the text first,
then alphabetic content words longer than 4 characters not in the stop list;
first-occurrence dedup, capped at 5, sentinel `["journal", "entry"]` when
empty.  (Python `t.isalpha()` also requires nonemptiness, which is implied
by `len(t) > 4`.) -/
def extractQualityKeywords (text : String) (emotion : String) : List String :=
  let tokens := pyTokenize text
  let emotion_kwds := (EMOTION_KEYWORDS emotion).filter (fun kw => decide (kw ∈ tokens))
  let content_words := tokens.filter (fun t =>
    decide (4 < t.length) && t.data.all Char.isAlpha &&
    decide (t ∉ stop_words) && decide (t ∉ emotion_kwds))
  let final_keywords := (pdedupAux [] (emotion_kwds ++ content_words)).take 5
  if final_keywords = [] then ["journal", "entry"] else final_keywords

/-- `positive_emotions` in `validate_and_fix`. -/
def positive_emotions : List String := ["happy", "calm"]

/-- `negative_emotions` in `validate_and_fix`. -/
def negative_emotions : List String := ["sad", "anxious", "angry"]

/-- CHECK 1 of `validate_and_fix`: low confidence re-detection. -/
def applyCheck1 (t : String) (x : String × ℚ × ℚ) : String × ℚ × ℚ :=
  if x.2.2 < 0.5 then detectEmotionFromText t else x

/-- CHECKs 2 and 3 of `validate_and_fix`: the sign-fix `if`/`elif` chain and
its final `elif` for a neutral emotion with an extreme score. -/
def applyCheck23 (t : String) (x : String × ℚ × ℚ) : String × ℚ × ℚ :=
  if x.1 ∈ positive_emotions ∧ x.2.1 < 0 then (x.1, |x.2.1|, x.2.2)
  else if x.1 ∈ negative_emotions ∧ x.2.1 > 0 then (x.1, -|x.2.1|, x.2.2)
  else if x.1 = "neutral" ∧ |x.2.1| > 0.25 then detectEmotionFromText t
  else x

/-- CHECK 4 of `validate_and_fix`: clamp the score into the emotion's range
when the emotion is a key of `EMOTION_SCORE_RANGES`. -/
def applyCheck4 (x : String × ℚ × ℚ) : String × ℚ × ℚ :=
  match EMOTION_SCORE_RANGES x.1 with
  | some (lo, hi) => (x.1, max lo (min hi x.2.1), x.2.2)
  | none => x

/-- CHECK 5 of `validate_and_fix`: if the current emotion has zero keyword
matches in the text and some non-neutral emotion has a positive count,
re-detect from the text (Python's `max(..., key=...)` returns the first
maximum in dict order; the `default=None` branch is unreachable since the
generator is nonempty). -/
def applyCheck5 (t : String) (x : String × ℚ × ℚ) : String × ℚ × ℚ :=
  let cnt := countEmotionMatches (pyTokenize t)
  if cnt x.1 = 0 then
    let best := argmaxFirst cnt "happy" ["sad", "anxious", "calm", "angry"]
    if 0 < cnt best then detectEmotionFromText t else x
  else x

/-- `validate_and_fix` from `emotion_validator.py`.  The `or`-coalescing of
the input dict fields maps an empty emotion string to `"neutral"` (the only
falsy string); `or 0.0` on the numeric fields and `or []` on the keyword
list are identities on present values.  The input keyword list is unused:
keywords are always rebuilt by CHECK 6. -/
def validate_and_fix (mood_result : MoodResult) (original_text : String) : MoodResult :=
  let emotion := pyLower (if mood_result.dominant_emotion = "" then "neutral"
                          else mood_result.dominant_emotion)
  let score := max (-1.0) (min 1.0 mood_result.mood_score)
  let confidence := mood_result.confidence
  let r1 := applyCheck1 original_text (emotion, score, confidence)
  let r3 := applyCheck23 original_text r1
  let r4 := applyCheck4 r3
  let r5 := applyCheck5 original_text r4
  { mood_score := roundTo 4 r5.2.1
    dominant_emotion := r5.1
    confidence := roundTo 4 r5.2.2
    keywords := extractQualityKeywords original_text r5.1 }

/-! ## `utils/mood_analyzer.py` -/

/-- The fallback lexicon of `MoodAnalyzer._fallback_analysis` (dict insertion
order: happy, sad, anxious, calm, angry). -/
def fallbackEmotions : String → List String
  | "happy" =>
    ["amazing", "excited", "proud", "wonderful", "great", "fantastic",
     "love", "joy", "thrilled", "excellent", "awesome", "brilliant",
     "delighted", "happy", "grateful", "blessed", "favorite"]
  | "sad" =>
    ["sad", "depressed", "unhappy", "disappointed", "miserable",
     "awful", "terrible", "heartbroken", "devastated"]
  | "anxious" =>
    ["anxious", "worried", "stressed", "nervous", "overwhelmed",
     "scared", "fearful", "panic", "tense"]
  | "calm" =>
    ["calm", "peaceful", "relaxed", "serene", "tranquil",
     "content", "comfortable", "patient", "grounded",
     "present", "mindfulness", "mindful", "simple", "gentle",
     "stillness", "quiet", "steady", "slow"]
  | "angry" =>
    ["angry", "furious", "irritated", "annoyed", "rage"]
  | _ => []

/-- The `stop_words` set of `_fallback_analysis` (transcribed as written;
only membership matters). -/
def fallback_stop_words : List String :=
  ["the", "a", "an", "and", "or", "but", "in", "on", "at", "to", "for",
   "of", "with", "by", "from", "up", "about", "into", "during", "have",
   "has", "had", "been", "was", "were", "is", "am", "are", "this", "that",
   "these", "those", "i", "you", "he", "she", "it", "we", "they", "my",
   "your", "his", "her", "its", "our", "their", "because", "really", "today",
   "just", "even", "when", "not", "too", "very", "so", "how", "what", "when",
   "where", "who", "which", "than", "then", "now", "here", "there", "been",
   "myself", "sometimes", "went", "made", "woke", "found", "came", "went"]

/-- The punctuation characters stripped from each word by
`_fallback_analysis` (`w.strip('.,!?;:\'"')`). -/
def fallbackPunct : List Char :=
  ['.', ',', '!', '?', ';', ':', '\'', '\"']

/-- The word list of `_fallback_analysis`: lowercase, split on whitespace,
strip the punctuation characters from each word's ends (`word_list` in the
source; `words` is its set, modelled by list membership). -/
def fallbackWordList (text : String) : List String :=
  (pySplitWs (pyLower text).data).map (pyStripChars fallbackPunct)

/-- Per-emotion whole-word match count of `_fallback_analysis`. -/
def fallbackMatchCount (words : List String) (emotion : String) : ℕ :=
  ((fallbackEmotions emotion).filter (fun kw => decide (kw ∈ words))).length

/-- The emotion/score/confidence computation of
`MoodAnalyzer._fallback_analysis`.  The final `else` (score `0.0`,
confidence `0.6`) is the unreachable defensive branch for a dominant emotion
outside the five buckets, transcribed faithfully. -/
def fallbackTriple (text : String) : String × ℚ × ℚ :=
  let words := fallbackWordList text
  let cnt := fallbackMatchCount words
  let total_matches := (nonNeutralEmotions.map cnt).sum
  if total_matches = 0 then ("neutral", (0.0 : ℚ), (0.5 : ℚ))
  else
    let dominant := argmaxFirst cnt "happy" ["sad", "anxious", "calm", "angry"]
    let match_count := cnt dominant
    if dominant = "happy" then
      (dominant, min 0.85 ((match_count : ℚ) * 0.25), min 0.85 (0.65 + (match_count : ℚ) * 0.1))
    else if dominant = "calm" then
      (dominant, min 0.55 ((match_count : ℚ) * 0.18), min 0.85 (0.65 + (match_count : ℚ) * 0.1))
    else if dominant ∈ (["sad", "anxious", "angry"] : List String) then
      (dominant, max (-0.85) (-((match_count : ℚ) * 0.25)), min 0.85 (0.65 + (match_count : ℚ) * 0.1))
    else
      (dominant, 0.0, 0.6)

/-- `MoodAnalyzer._fallback_analysis`: rule-based emotion/score/confidence
(see `fallbackTriple`) plus keyword extraction. -/
def fallbackAnalysis (text : String) : MoodResult :=
  let words := fallbackWordList text
  let dominant := (fallbackTriple text).1
  let mood_score := (fallbackTriple text).2.1
  let confidence := (fallbackTriple text).2.2
  let found_keywords :=
    pdedupAux [] ((nonNeutralEmotions.flatMap fallbackEmotions).filter
      (fun kw => decide (kw ∈ words)))
  let other_words := words.filter (fun w =>
    decide (4 < w.length) && w.data.all Char.isAlpha &&
    decide (w ∉ fallback_stop_words) && decide (w ∉ found_keywords))
  let final_keywords := (found_keywords ++ other_words).take 5
  let final_keywords := if final_keywords = [] then ["journal", "entry"] else final_keywords
  { mood_score := mood_score
    dominant_emotion := dominant
    confidence := confidence
    keywords := final_keywords }

/-- The closed emotion set of `_parse_model_json` (`valid_emotions`). -/
def valid_emotions : List String :=
  ["happy", "sad", "anxious", "calm", "angry", "neutral"]

/-- Model of Python `str.strip()` (strip whitespace from both ends). -/
def pyStripWs (s : String) : String :=
  String.mk (((s.data.dropWhile (isPyWspace ·)).reverse.dropWhile (isPyWspace ·)).reverse)

/-- The field-coercion tail of `MoodAnalyzer._parse_model_json` (the part
after `json.loads`): clamp score to `[-1, 1]` and confidence to `[0, 1]`,
lowercase the emotion and default it to `"neutral"` when outside the closed
set, normalise the keyword list by stripping entries and dropping the empty
ones.  The code-fence stripping, brace search and JSON parsing that precede
it are transport concerns; a parse failure there is modelled by the
`failure` outcome of `ServiceOutcome` below. -/
def parseModelFields (mood_score : ℚ) (dominant_emotion : String)
    (confidence : ℚ) (keywords_raw : List String) : MoodResult :=
  let keywords := (keywords_raw.map pyStripWs).filter (fun k => decide (k ≠ ""))
  let mood_score := max (-1.0) (min 1.0 mood_score)
  let confidence := max 0.0 (min 1.0 confidence)
  let dominant_emotion :=
    let e := pyLower dominant_emotion
    if e ∈ valid_emotions then e else "neutral"
  { mood_score := mood_score
    dominant_emotion := dominant_emotion
    confidence := confidence
    keywords := keywords }

/-- `MoodAnalyzer._fix_emotion_score_consistency`: the analyzer-side
pre-pass flipping contradictory score signs and re-running the fallback for
a neutral emotion with `|score| > 0.3`. -/
def fixEmotionScoreConsistency (result : MoodResult) (original_text : String) : MoodResult :=
  let emotion := result.dominant_emotion
  let score := result.mood_score
  if emotion ∈ positive_emotions ∧ score < 0 then
    { result with mood_score := |score| }
  else if emotion ∈ negative_emotions ∧ score > 0 then
    { result with mood_score := -|score| }
  else if emotion = "neutral" ∧ |score| > 0.3 then
    let fallback := fallbackAnalysis original_text
    if fallback.dominant_emotion ≠ "neutral" then fallback
    else { result with mood_score := 0.0 }
  else result

/-- `MoodAnalyzer._neutral_result`. -/
def neutralResult : MoodResult :=
  { mood_score := 0.0, dominant_emotion := "neutral", confidence := 0.5, keywords := ["entry"] }

/-- Outcome of the single Ollama request of `analyze_entry`, abstracting the
transport and JSON layers: `failure` covers a timeout, a transport error, a
non-JSON body, a missing `response` field and a `_parse_model_json`
exception (all of which fall back to `_fallback_analysis`); `parsed` carries
the four JSON fields handed to the coercion tail of `_parse_model_json`. -/
inductive ServiceOutcome where
  | failure
  | parsed (mood_score : ℚ) (dominant_emotion : String) (confidence : ℚ)
      (keywords : List String)
deriving DecidableEq

/-- `MoodAnalyzer.analyze_entry`, modelled over an explicit service outcome.
The returned `Bool` records whether the external service was contacted
(`False` only on the empty-input short-circuit, which returns
`_neutral_result` before building the request). -/
def analyzeEntry (svc : ServiceOutcome) (text : String) : MoodResult × Bool :=
  if text = "" ∨ pyStripWs text = "" then (neutralResult, false)
  else
    match svc with
    | .failure => (fallbackAnalysis text, true)
    | .parsed s e c k => (fixEmotionScoreConsistency (parseModelFields s e c k) text, true)

/-! ## Rounding lemmas -/

theorem pyRound_intCast (m : ℤ) : pyRound (m : ℚ) = m := by
  simp [pyRound]

theorem le_pyRound (m : ℤ) (x : ℚ) (h : (m : ℚ) ≤ x) : m ≤ pyRound x := by
  have hm : m ≤ ⌊x⌋ := Int.le_floor.mpr h
  simp only [pyRound]
  split_ifs <;> omega

theorem pyRound_le (m : ℤ) (x : ℚ) (h : x ≤ (m : ℚ)) : pyRound x ≤ m := by
  have h0 : ⌊x⌋ ≤ m := by
    have := Int.floor_le_floor h
    simpa using this
  simp only [pyRound]
  split_ifs with h1 h2 h3
  · exact h0
  · have hx : (⌊x⌋ : ℚ) < x := by linarith [not_lt.mp h1]
    have : ⌊x⌋ < m := by exact_mod_cast hx.trans_le h
    omega
  · exact h0
  · have hx : (⌊x⌋ : ℚ) < x := by linarith [not_lt.mp h1]
    have : ⌊x⌋ < m := by exact_mod_cast hx.trans_le h
    omega

theorem roundTo_eq_of (k : ℕ) (x : ℚ) (m : ℤ) (h : x * 10 ^ k = (m : ℚ)) :
    roundTo k x = x := by
  have hk : ((10 : ℚ) ^ k) ≠ 0 := by positivity
  unfold roundTo
  rw [h, pyRound_intCast, ← h, mul_div_assoc, div_self hk, mul_one]

theorem roundTo_le (k : ℕ) (x b : ℚ) (m : ℤ) (hb : b * 10 ^ k = (m : ℚ))
    (h : x ≤ b) : roundTo k x ≤ b := by
  have hk : (0 : ℚ) < 10 ^ k := by positivity
  have hp : pyRound (x * 10 ^ k) ≤ m :=
    pyRound_le _ _ (by rw [← hb]; exact mul_le_mul_of_nonneg_right h (le_of_lt hk))
  have : (pyRound (x * 10 ^ k) : ℚ) ≤ (m : ℚ) := by exact_mod_cast hp
  unfold roundTo
  rw [div_le_iff₀ hk, ← hb] at *
  linarith

theorem roundTo_ge (k : ℕ) (x b : ℚ) (m : ℤ) (hb : b * 10 ^ k = (m : ℚ))
    (h : b ≤ x) : b ≤ roundTo k x := by
  have hk : (0 : ℚ) < 10 ^ k := by positivity
  have hp : m ≤ pyRound (x * 10 ^ k) :=
    le_pyRound _ _ (by rw [← hb]; exact mul_le_mul_of_nonneg_right h (le_of_lt hk))
  have : (m : ℚ) ≤ (pyRound (x * 10 ^ k) : ℚ) := by exact_mod_cast hp
  unfold roundTo
  rw [le_div_iff₀ hk, ← hb] at *
  linarith

theorem roundTo_grid (k : ℕ) (x : ℚ) : roundTo k (roundTo k x) = roundTo k x := by
  apply roundTo_eq_of k _ (pyRound (x * 10 ^ k))
  unfold roundTo
  have hk : ((10 : ℚ) ^ k) ≠ 0 := by positivity
  field_simp

theorem roundTo_four_two (x : ℚ) : roundTo 4 (roundTo 2 x) = roundTo 2 x := by
  apply roundTo_eq_of 4 _ (pyRound (x * 10 ^ 2) * 10 ^ 2)
  unfold roundTo
  have hk : ((10 : ℚ) ^ 2) ≠ 0 := by positivity
  push_cast
  field_simp
  ring

/-! ## String and list helper lemmas -/

theorem charLower_toNat (c : Char) (h : 'A' ≤ c ∧ c ≤ 'Z') :
    (charLower c).toNat = c.toNat + 32 := by
  have h2 : c.toNat ≤ 90 := h.2
  have h1 : c.toNat + 32 < 55296 := by omega
  simp only [charLower, if_pos h]
  unfold Char.ofNat
  split
  · rfl
  · rename_i hcontra
    simp [Nat.isValidChar] at hcontra
    omega

theorem charLower_idem (c : Char) : charLower (charLower c) = charLower c := by
  by_cases h : 'A' ≤ c ∧ c ≤ 'Z'
  · have ht := charLower_toNat c h
    have hA : (65 : ℕ) ≤ c.toNat := h.1
    have hZ : c.toNat ≤ 90 := h.2
    have hnot : ¬('A' ≤ charLower c ∧ charLower c ≤ 'Z') := by
      intro hc
      have : (charLower c).toNat ≤ 90 := hc.2
      omega
    rw [charLower, if_neg hnot]
  · have hc : charLower c = c := by rw [charLower, if_neg h]
    rw [hc, charLower, if_neg h]

theorem pyLower_idem (s : String) : pyLower (pyLower s) = pyLower s := by
  unfold pyLower
  congr 1
  generalize s.data = l
  induction l with
  | nil => rfl
  | cons c cs ih => simp [charLower_idem, ih]

theorem pyLower_ne_empty (s : String) (h : s ≠ "") : pyLower s ≠ "" := by
  intro hc
  apply h
  have hd : (pyLower s).data = ("" : String).data := by rw [hc]
  simp [pyLower] at hd
  exact String.ext (by simp [hd])

theorem pdedupAux_mem (l : List String) (seen : List String) (x : String)
    (h : x ∈ pdedupAux seen l) : x ∈ l ∧ x ∉ seen := by
  induction l generalizing seen with
  | nil => simp [pdedupAux] at h
  | cons y ys ih =>
    rw [pdedupAux] at h
    split_ifs at h with hy
    · have := ih _ h
      exact ⟨List.mem_cons_of_mem _ this.1, this.2⟩
    · rcases List.mem_cons.mp h with rfl | h2
      · exact ⟨List.mem_cons_self _ _, hy⟩
      · have := ih _ h2
        refine ⟨List.mem_cons_of_mem _ this.1, fun hc => this.2 ?_⟩
        exact List.mem_cons_of_mem _ hc

theorem pdedupAux_nodup (l : List String) (seen : List String) :
    (pdedupAux seen l).Nodup := by
  induction l generalizing seen with
  | nil => simp [pdedupAux]
  | cons y ys ih =>
    rw [pdedupAux]
    split_ifs with hy
    · exact ih _
    · refine List.nodup_cons.mpr ⟨fun hc => ?_, ih _⟩
      exact (pdedupAux_mem _ _ _ hc).2 (List.mem_cons_self _ _)

theorem pdedupAux_append (a : List String) : ∀ (b seen : List String), a.Nodup →
    (∀ x ∈ a, x ∉ seen) → (∀ x ∈ b, x ∉ a) →
    ∃ s', pdedupAux seen (a ++ b) = a ++ pdedupAux s' b := by
  induction a with
  | nil =>
    intro b seen _ _ _
    exact ⟨seen, rfl⟩
  | cons y ys ih =>
    intro b seen ha hsa hba
    rw [List.cons_append, pdedupAux,
        if_neg (hsa y (List.mem_cons_self _ _))]
    obtain ⟨s', hs'⟩ := ih b (y :: seen) (List.nodup_cons.mp ha).2
      (fun x hx => by
        simp only [List.mem_cons, not_or]
        exact ⟨fun hc => (List.nodup_cons.mp ha).1 (hc ▸ hx),
               hsa x (List.mem_cons_of_mem _ hx)⟩)
      (fun x hx => fun hc => hba x hx (List.mem_cons_of_mem _ hc))
    exact ⟨s', by rw [hs', List.cons_append]⟩

theorem argmaxFirst_mem (f : String → ℕ) (b : String) (l : List String) :
    argmaxFirst f b l ∈ b :: l := by
  induction l generalizing b with
  | nil => simp [argmaxFirst]
  | cons e es ih =>
    rw [argmaxFirst]
    by_cases hc : f b < f e
    · rw [if_pos hc]
      rcases List.mem_cons.mp (ih e) with h1 | h1
      · simp [h1]
      · simp [List.mem_cons_of_mem, h1]
    · rw [if_neg hc]
      rcases List.mem_cons.mp (ih b) with h1 | h1
      · simp [h1]
      · simp [List.mem_cons_of_mem, h1]

theorem le_argmaxFirst (f : String → ℕ) (b : String) (l : List String) :
    ∀ e ∈ b :: l, f e ≤ f (argmaxFirst f b l) := by
  induction l generalizing b with
  | nil =>
    intro e he
    simp at he
    simp [argmaxFirst, he]
  | cons y ys ih =>
    intro e he
    rw [argmaxFirst]
    by_cases hc : f b < f y
    · rw [if_pos hc]
      rcases List.mem_cons.mp he with rfl | he2
      · exact (le_of_lt hc).trans (ih y _ (List.mem_cons_self _ _))
      · rcases List.mem_cons.mp he2 with rfl | he3
        · exact ih e e (List.mem_cons_self _ _)
        · exact ih y e (List.mem_cons_of_mem _ he3)
    · rw [if_neg hc]
      rcases List.mem_cons.mp he with rfl | he2
      · exact ih e e (List.mem_cons_self _ _)
      · rcases List.mem_cons.mp he2 with rfl | he3
        · exact (not_lt.mp hc).trans (ih b b (List.mem_cons_self _ _))
        · exact ih b e (List.mem_cons_of_mem _ he3)

/-! ## Re-detector lemmas -/

/-- The dominant emotion chosen by `_detect_emotion_from_text` (the
`max(primary_counts, key=primary_counts.get)` step). -/
def dominantOf (t : String) : String :=
  argmaxFirst (countEmotionMatches (pyTokenize t)) "happy" ["sad", "anxious", "calm", "angry"]

/-- The range pair looked up by `_detect_emotion_from_text`. -/
def rangeOf (t : String) : ℚ × ℚ :=
  (EMOTION_SCORE_RANGES (dominantOf t)).getD (0, 0)

theorem detect_eq_zero_case (t : String)
    (h : (nonNeutralEmotions.map (countEmotionMatches (pyTokenize t))).sum = 0) :
    detectEmotionFromText t = ("neutral", 0.0, 0.5) := by
  simp only [detectEmotionFromText]
  rw [if_pos h]

theorem detect_eq_pos_case (t : String)
    (h : ¬(nonNeutralEmotions.map (countEmotionMatches (pyTokenize t))).sum = 0) :
    detectEmotionFromText t =
      (dominantOf t,
       roundTo 2 (max (rangeOf t).1 (min (rangeOf t).2
         ((rangeOf t).1 + ((rangeOf t).2 - (rangeOf t).1) *
           min 1.0 ((countEmotionMatches (pyTokenize t) (dominantOf t) : ℚ) / 5.0)))),
       min 0.90 (0.55 + (countEmotionMatches (pyTokenize t) (dominantOf t) : ℚ) * 0.08)) := by
  simp only [detectEmotionFromText, dominantOf, rangeOf]
  rw [if_neg h]

theorem dominantOf_mem (t : String) : dominantOf t ∈ nonNeutralEmotions :=
  argmaxFirst_mem _ _ _

theorem cnt_dominantOf_pos (t : String)
    (h : ¬(nonNeutralEmotions.map (countEmotionMatches (pyTokenize t))).sum = 0) :
    0 < countEmotionMatches (pyTokenize t) (dominantOf t) := by
  by_contra hc
  apply h
  apply List.sum_eq_zero
  intro x hx
  rcases List.mem_map.mp hx with ⟨e, he, rfl⟩
  have := le_argmaxFirst (countEmotionMatches (pyTokenize t)) "happy"
    ["sad", "anxious", "calm", "angry"] e he
  have h0 : countEmotionMatches (pyTokenize t) (dominantOf t) = 0 := by omega
  rw [dominantOf] at h0
  omega

theorem score_conf_facts (lo hi : ℚ) (k : ℕ) (mlo mhi : ℤ)
    (hlo : lo * 10 ^ 2 = (mlo : ℚ)) (hhi : hi * 10 ^ 2 = (mhi : ℚ)) (hlohi : lo ≤ hi) :
    lo ≤ roundTo 2 (max lo (min hi (lo + (hi - lo) * min 1.0 ((k : ℚ) / 5.0)))) ∧
    roundTo 2 (max lo (min hi (lo + (hi - lo) * min 1.0 ((k : ℚ) / 5.0)))) ≤ hi ∧
    0.5 ≤ min 0.90 (0.55 + (k : ℚ) * 0.08) ∧
    roundTo 4 (roundTo 2 (max lo (min hi (lo + (hi - lo) * min 1.0 ((k : ℚ) / 5.0))))) =
      roundTo 2 (max lo (min hi (lo + (hi - lo) * min 1.0 ((k : ℚ) / 5.0)))) ∧
    roundTo 4 (min 0.90 (0.55 + (k : ℚ) * 0.08)) = min 0.90 (0.55 + (k : ℚ) * 0.08) := by
  refine ⟨?_, ?_, ?_, roundTo_four_two _, ?_⟩
  · exact roundTo_ge 2 _ lo mlo hlo (le_max_left _ _)
  · exact roundTo_le 2 _ hi mhi hhi (max_le hlohi (min_le_left _ _))
  · refine le_min (by norm_num) ?_
    have hk : (0 : ℚ) ≤ (k : ℚ) * 0.08 := by positivity
    linarith
  · rcases min_choice (0.90 : ℚ) (0.55 + (k : ℚ) * 0.08) with hm | hm <;> rw [hm]
    · exact roundTo_eq_of 4 _ 9000 (by norm_num)
    · exact roundTo_eq_of 4 _ (5500 + 800 * k) (by push_cast; ring)

/-- Facts about the re-detector's output in the case where some
non-neutral emotion has keyword evidence, parameterized by the dominant
emotion and its range entry. -/
theorem detect_spec_pos_case (t : String) (e : String) (lo hi : ℚ) (mlo mhi : ℤ)
    (h : ¬(nonNeutralEmotions.map (countEmotionMatches (pyTokenize t))).sum = 0)
    (hd : dominantOf t = e)
    (he6 : e ∈ allEmotions) (hlow : pyLower e = e) (hne : e ≠ "") (hnn : e ≠ "neutral")
    (hr : EMOTION_SCORE_RANGES e = some (lo, hi))
    (hlo : lo * 10 ^ 2 = (mlo : ℚ)) (hhi : hi * 10 ^ 2 = (mhi : ℚ)) (hlohi : lo ≤ hi) :
    (detectEmotionFromText t).1 ∈ allEmotions ∧
    pyLower (detectEmotionFromText t).1 = (detectEmotionFromText t).1 ∧
    (detectEmotionFromText t).1 ≠ "" ∧
    (∃ lo2 hi2, EMOTION_SCORE_RANGES (detectEmotionFromText t).1 = some (lo2, hi2) ∧
      lo2 ≤ (detectEmotionFromText t).2.1 ∧ (detectEmotionFromText t).2.1 ≤ hi2) ∧
    0.5 ≤ (detectEmotionFromText t).2.2 ∧
    roundTo 4 (detectEmotionFromText t).2.1 = (detectEmotionFromText t).2.1 ∧
    roundTo 4 (detectEmotionFromText t).2.2 = (detectEmotionFromText t).2.2 ∧
    ((detectEmotionFromText t).1 ≠ "neutral" →
      0 < countEmotionMatches (pyTokenize t) (detectEmotionFromText t).1) ∧
    ((detectEmotionFromText t).1 = "neutral" →
      ∀ e2 ∈ nonNeutralEmotions, countEmotionMatches (pyTokenize t) e2 = 0) := by
  have hpos := cnt_dominantOf_pos t h
  have hrange : rangeOf t = (lo, hi) := by
    rw [rangeOf, hd, hr]
    rfl
  rw [detect_eq_pos_case t h, hd, hrange]
  dsimp only
  obtain ⟨h1, h2, h3, h4, h5⟩ :=
    score_conf_facts lo hi (countEmotionMatches (pyTokenize t) e) mlo mhi hlo hhi hlohi
  exact ⟨he6, hlow, hne, ⟨lo, hi, hr, h1, h2⟩, h3, h4, h5,
    fun _ => hd ▸ hpos, fun hc => absurd hc hnn⟩

/-- The facts about the re-detector's output needed by the validator's
invariants: the emotion is one of the six, lowercase and nonempty; the score
lies in the emotion's range; the confidence is at least `0.5`; score and
confidence are unchanged by `round(_, 4)`; a non-neutral detection has
positive keyword evidence; a neutral detection means every non-neutral
emotion has zero evidence. -/
theorem detect_spec (t : String) :
    (detectEmotionFromText t).1 ∈ allEmotions ∧
    pyLower (detectEmotionFromText t).1 = (detectEmotionFromText t).1 ∧
    (detectEmotionFromText t).1 ≠ "" ∧
    (∃ lo hi, EMOTION_SCORE_RANGES (detectEmotionFromText t).1 = some (lo, hi) ∧
      lo ≤ (detectEmotionFromText t).2.1 ∧ (detectEmotionFromText t).2.1 ≤ hi) ∧
    0.5 ≤ (detectEmotionFromText t).2.2 ∧
    roundTo 4 (detectEmotionFromText t).2.1 = (detectEmotionFromText t).2.1 ∧
    roundTo 4 (detectEmotionFromText t).2.2 = (detectEmotionFromText t).2.2 ∧
    ((detectEmotionFromText t).1 ≠ "neutral" →
      0 < countEmotionMatches (pyTokenize t) (detectEmotionFromText t).1) ∧
    ((detectEmotionFromText t).1 = "neutral" →
      ∀ e ∈ nonNeutralEmotions, countEmotionMatches (pyTokenize t) e = 0) := by
  by_cases h : (nonNeutralEmotions.map (countEmotionMatches (pyTokenize t))).sum = 0
  · rw [detect_eq_zero_case t h]
    refine ⟨by decide, by decide, by decide, ⟨-0.15, 0.15, by norm_num [EMOTION_SCORE_RANGES],
      by norm_num, by norm_num⟩, by norm_num, roundTo_eq_of 4 _ 0 (by norm_num),
      roundTo_eq_of 4 _ 5000 (by norm_num), fun hc => absurd rfl hc, fun _ e he => ?_⟩
    have hx : countEmotionMatches (pyTokenize t) e ∈
        (nonNeutralEmotions.map (countEmotionMatches (pyTokenize t))) :=
      List.mem_map.mpr ⟨e, he, rfl⟩
    exact List.sum_eq_zero_iff.mp h _ hx
  · have hmem := dominantOf_mem t
    simp only [nonNeutralEmotions, List.mem_cons, List.not_mem_nil, or_false] at hmem
    rcases hmem with hd | hd | hd | hd | hd
    · exact detect_spec_pos_case t "happy" 0.2 1.0 20 100 h hd (by decide) (by decide)
        (by decide) (by decide) (by norm_num [EMOTION_SCORE_RANGES]) (by norm_num)
        (by norm_num) (by norm_num)
    · exact detect_spec_pos_case t "sad" (-0.9) (-0.2) (-90) (-20) h hd (by decide) (by decide)
        (by decide) (by decide) (by norm_num [EMOTION_SCORE_RANGES]) (by norm_num)
        (by norm_num) (by norm_num)
    · exact detect_spec_pos_case t "anxious" (-0.8) (-0.1) (-80) (-10) h hd (by decide)
        (by decide) (by decide) (by decide) (by norm_num [EMOTION_SCORE_RANGES]) (by norm_num)
        (by norm_num) (by norm_num)
    · exact detect_spec_pos_case t "calm" 0.1 0.6 10 60 h hd (by decide) (by decide)
        (by decide) (by decide) (by norm_num [EMOTION_SCORE_RANGES]) (by norm_num)
        (by norm_num) (by norm_num)
    · exact detect_spec_pos_case t "angry" (-0.9) (-0.3) (-90) (-30) h hd (by decide)
        (by decide) (by decide) (by decide) (by norm_num [EMOTION_SCORE_RANGES]) (by norm_num)
        (by norm_num) (by norm_num)

/-! ## Validator check lemmas -/

theorem ranges_inv (e : String) (lo hi : ℚ)
    (hr : EMOTION_SCORE_RANGES e = some (lo, hi)) :
    e ∈ allEmotions ∧ lo ≤ hi ∧ -1 ≤ lo ∧ hi ≤ 1 ∧
    ∃ mlo mhi : ℤ, lo * 10 ^ 2 = (mlo : ℚ) ∧ hi * 10 ^ 2 = (mhi : ℚ) := by
  rw [EMOTION_SCORE_RANGES.eq_def] at hr
  split at hr
  · rw [Option.some.injEq, Prod.mk.injEq] at hr
    obtain ⟨h1, h2⟩ := hr
    subst h1; subst h2
    exact ⟨by decide, by norm_num, by norm_num, by norm_num, 20, 100, by norm_num, by norm_num⟩
  · rw [Option.some.injEq, Prod.mk.injEq] at hr
    obtain ⟨h1, h2⟩ := hr
    subst h1; subst h2
    exact ⟨by decide, by norm_num, by norm_num, by norm_num, 10, 60, by norm_num, by norm_num⟩
  · rw [Option.some.injEq, Prod.mk.injEq] at hr
    obtain ⟨h1, h2⟩ := hr
    subst h1; subst h2
    exact ⟨by decide, by norm_num, by norm_num, by norm_num, -15, 15, by norm_num, by norm_num⟩
  · rw [Option.some.injEq, Prod.mk.injEq] at hr
    obtain ⟨h1, h2⟩ := hr
    subst h1; subst h2
    exact ⟨by decide, by norm_num, by norm_num, by norm_num, -80, -10, by norm_num, by norm_num⟩
  · rw [Option.some.injEq, Prod.mk.injEq] at hr
    obtain ⟨h1, h2⟩ := hr
    subst h1; subst h2
    exact ⟨by decide, by norm_num, by norm_num, by norm_num, -90, -20, by norm_num, by norm_num⟩
  · rw [Option.some.injEq, Prod.mk.injEq] at hr
    obtain ⟨h1, h2⟩ := hr
    subst h1; subst h2
    exact ⟨by decide, by norm_num, by norm_num, by norm_num, -90, -30, by norm_num, by norm_num⟩
  · exact Option.noConfusion hr

theorem ranges_none_of_not_mem (e : String) (h : e ∉ allEmotions) :
    EMOTION_SCORE_RANGES e = none := by
  rw [EMOTION_SCORE_RANGES.eq_def]
  split
  all_goals first
  | rfl
  | (exfalso; apply h; subst_vars; decide)

theorem range_sign_facts (e : String) (lo hi s : ℚ)
    (hr : EMOTION_SCORE_RANGES e = some (lo, hi)) (hsl : lo ≤ s) (hsh : s ≤ hi) :
    ¬(e ∈ positive_emotions ∧ s < 0) ∧ ¬(e ∈ negative_emotions ∧ s > 0) ∧
    ¬(e = "neutral" ∧ |s| > 0.25) := by
  refine ⟨?_, ?_, ?_⟩
  · rintro ⟨hp, hs⟩
    simp only [positive_emotions, List.mem_cons, List.not_mem_nil, or_false] at hp
    rcases hp with rfl | rfl <;>
    · simp only [EMOTION_SCORE_RANGES, Option.some.injEq, Prod.mk.injEq] at hr
      obtain ⟨h1, h2⟩ := hr
      subst h1; subst h2
      norm_num at hsl
      linarith
  · rintro ⟨hp, hs⟩
    simp only [negative_emotions, List.mem_cons, List.not_mem_nil, or_false] at hp
    rcases hp with rfl | rfl | rfl <;>
    · simp only [EMOTION_SCORE_RANGES, Option.some.injEq, Prod.mk.injEq] at hr
      obtain ⟨h1, h2⟩ := hr
      subst h1; subst h2
      norm_num at hsh
      linarith
  · rintro ⟨rfl, hs⟩
    simp only [EMOTION_SCORE_RANGES, Option.some.injEq, Prod.mk.injEq] at hr
    obtain ⟨h1, h2⟩ := hr
    subst h1; subst h2
    have habs : |s| ≤ 0.15 := abs_le.mpr ⟨by linarith, hsh⟩
    norm_num at habs hs
    linarith

theorem applyCheck1_fire (t : String) (x : String × ℚ × ℚ) (h : x.2.2 < 0.5) :
    applyCheck1 t x = detectEmotionFromText t := by
  rw [applyCheck1, if_pos h]

theorem applyCheck1_skip (t : String) (x : String × ℚ × ℚ) (h : ¬x.2.2 < 0.5) :
    applyCheck1 t x = x := by
  rw [applyCheck1, if_neg h]

theorem applyCheck23_eq_self (t : String) (x : String × ℚ × ℚ)
    (h1 : ¬(x.1 ∈ positive_emotions ∧ x.2.1 < 0))
    (h2 : ¬(x.1 ∈ negative_emotions ∧ x.2.1 > 0))
    (h3 : ¬(x.1 = "neutral" ∧ |x.2.1| > 0.25)) :
    applyCheck23 t x = x := by
  rw [applyCheck23, if_neg h1, if_neg h2, if_neg h3]

theorem applyCheck23_of_other (t : String) (x : String × ℚ × ℚ)
    (h1 : x.1 ∉ positive_emotions) (h2 : x.1 ∉ negative_emotions)
    (h3 : x.1 ≠ "neutral") :
    applyCheck23 t x = x :=
  applyCheck23_eq_self t x (fun hc => h1 hc.1) (fun hc => h2 hc.1) (fun hc => h3 hc.1)

theorem applyCheck4_some (x : String × ℚ × ℚ) (lo hi : ℚ)
    (hr : EMOTION_SCORE_RANGES x.1 = some (lo, hi)) :
    applyCheck4 x = (x.1, max lo (min hi x.2.1), x.2.2) := by
  simp only [applyCheck4, hr]

theorem applyCheck4_none (x : String × ℚ × ℚ)
    (hr : EMOTION_SCORE_RANGES x.1 = none) :
    applyCheck4 x = x := by
  simp only [applyCheck4, hr]

theorem applyCheck4_eq_self (x : String × ℚ × ℚ) (lo hi : ℚ)
    (hr : EMOTION_SCORE_RANGES x.1 = some (lo, hi))
    (hsl : lo ≤ x.2.1) (hsh : x.2.1 ≤ hi) :
    applyCheck4 x = x := by
  rw [applyCheck4_some x lo hi hr, min_eq_right hsh, max_eq_right hsl]

theorem best_eq_dominantOf (t : String) :
    argmaxFirst (countEmotionMatches (pyTokenize t)) "happy" ["sad", "anxious", "calm", "angry"] =
      dominantOf t := rfl

theorem applyCheck5_fire (t : String) (x : String × ℚ × ℚ)
    (h1 : countEmotionMatches (pyTokenize t) x.1 = 0)
    (h2 : 0 < countEmotionMatches (pyTokenize t) (dominantOf t)) :
    applyCheck5 t x = detectEmotionFromText t := by
  simp only [applyCheck5, best_eq_dominantOf]
  rw [if_pos h1, if_pos h2]

theorem applyCheck5_skip_pos (t : String) (x : String × ℚ × ℚ)
    (h : ¬countEmotionMatches (pyTokenize t) x.1 = 0) :
    applyCheck5 t x = x := by
  simp only [applyCheck5, best_eq_dominantOf]
  rw [if_neg h]

theorem applyCheck5_skip_nobest (t : String) (x : String × ℚ × ℚ)
    (h : ¬0 < countEmotionMatches (pyTokenize t) (dominantOf t)) :
    applyCheck5 t x = x := by
  simp only [applyCheck5, best_eq_dominantOf]
  split_ifs with h1 <;> rfl

theorem cnt_zero_of_dominant_zero (t : String)
    (h : countEmotionMatches (pyTokenize t) (dominantOf t) = 0) :
    ∀ e ∈ nonNeutralEmotions, countEmotionMatches (pyTokenize t) e = 0 := by
  intro e he
  have hle := le_argmaxFirst (countEmotionMatches (pyTokenize t)) "happy"
    ["sad", "anxious", "calm", "angry"] e (by simpa [nonNeutralEmotions] using he)
  rw [best_eq_dominantOf] at hle
  omega

/-- The output of the re-detector passes CHECKs 2 through 5 unchanged. -/
theorem detect_fixed (t : String) :
    applyCheck5 t (applyCheck4 (applyCheck23 t (detectEmotionFromText t))) =
      detectEmotionFromText t := by
  obtain ⟨hmem, hlow, hne, ⟨lo, hi, hr, hsl, hsh⟩, hconf, hr4s, hr4c, hpos, hzero⟩ :=
    detect_spec t
  obtain ⟨hs1, hs2, hs3⟩ := range_sign_facts _ lo hi _ hr hsl hsh
  rw [applyCheck23_eq_self t _ hs1 hs2 hs3, applyCheck4_eq_self _ lo hi hr hsl hsh]
  by_cases hc : (detectEmotionFromText t).1 = "neutral"
  · apply applyCheck5_skip_nobest
    have := hzero hc (dominantOf t) (dominantOf_mem t)
    omega
  · exact applyCheck5_skip_pos t _ (by have := hpos hc; omega)

/-! ## Pipeline structure lemmas -/

theorem applyCheck45_detect (t : String) :
    applyCheck5 t (applyCheck4 (detectEmotionFromText t)) = detectEmotionFromText t := by
  obtain ⟨hmem, hlow, hne, ⟨lo, hi, hr, hsl, hsh⟩, hconf, hr4s, hr4c, hpos, hzero⟩ :=
    detect_spec t
  rw [applyCheck4_eq_self _ lo hi hr hsl hsh]
  by_cases hc : (detectEmotionFromText t).1 = "neutral"
  · apply applyCheck5_skip_nobest
    have := hzero hc (dominantOf t) (dominantOf_mem t)
    omega
  · exact applyCheck5_skip_pos t _ (by have := hpos hc; omega)

theorem mem_positive_sub (e : String) (h : e ∈ positive_emotions) : e ∈ allEmotions := by
  simp only [positive_emotions, List.mem_cons, List.not_mem_nil, or_false] at h
  rcases h with rfl | rfl <;> decide

theorem mem_negative_sub (e : String) (h : e ∈ negative_emotions) : e ∈ allEmotions := by
  simp only [negative_emotions, List.mem_cons, List.not_mem_nil, or_false] at h
  rcases h with rfl | rfl | rfl <;> decide

theorem pos_has_range (e : String) (h : e ∈ positive_emotions) :
    EMOTION_SCORE_RANGES e ≠ none := by
  simp only [positive_emotions, List.mem_cons, List.not_mem_nil, or_false] at h
  rcases h with rfl | rfl <;> simp [EMOTION_SCORE_RANGES]

theorem neg_has_range (e : String) (h : e ∈ negative_emotions) :
    EMOTION_SCORE_RANGES e ≠ none := by
  simp only [negative_emotions, List.mem_cons, List.not_mem_nil, or_false] at h
  rcases h with rfl | rfl | rfl <;> simp [EMOTION_SCORE_RANGES]

theorem EMOTION_KEYWORDS_eq_nil (e : String) (h : e ∉ allEmotions) :
    EMOTION_KEYWORDS e = [] := by
  rw [EMOTION_KEYWORDS.eq_def]
  split
  all_goals first
  | rfl
  | (exfalso; apply h; subst_vars; decide)

theorem cnt_eq_zero_of_not_mem (tokens : List String) (e : String) (h : e ∉ allEmotions) :
    countEmotionMatches tokens e = 0 := by
  rw [countEmotionMatches, EMOTION_KEYWORDS_eq_nil e h]
  rfl

/-- CHECKs 4 and 5 applied to a kept triple `(e0, s', c)`: either the
zero-evidence override fires and the result is the re-detector's output, or
the triple survives with its emotion and confidence intact and its score
clamped into the emotion's range when the emotion has one. -/
theorem check45_cases (t : String) (e0 : String) (s' c : ℚ) :
    (applyCheck5 t (applyCheck4 (e0, s', c)) = detectEmotionFromText t ∧
     countEmotionMatches (pyTokenize t) e0 = 0 ∧
     0 < countEmotionMatches (pyTokenize t) (dominantOf t)) ∨
    ((applyCheck5 t (applyCheck4 (e0, s', c))).1 = e0 ∧
     (applyCheck5 t (applyCheck4 (e0, s', c))).2.2 = c ∧
     (countEmotionMatches (pyTokenize t) e0 ≠ 0 ∨
      countEmotionMatches (pyTokenize t) (dominantOf t) = 0) ∧
     (∀ lo hi, EMOTION_SCORE_RANGES e0 = some (lo, hi) →
        lo ≤ (applyCheck5 t (applyCheck4 (e0, s', c))).2.1 ∧
        (applyCheck5 t (applyCheck4 (e0, s', c))).2.1 ≤ hi) ∧
     (EMOTION_SCORE_RANGES e0 = none →
        (applyCheck5 t (applyCheck4 (e0, s', c))).2.1 = s')) := by
  rcases hE : EMOTION_SCORE_RANGES e0 with _ | ⟨lo, hi⟩
  · rw [applyCheck4_none _ hE]
    by_cases h5a : countEmotionMatches (pyTokenize t) e0 = 0
    · by_cases h5b : 0 < countEmotionMatches (pyTokenize t) (dominantOf t)
      · exact Or.inl ⟨applyCheck5_fire t _ h5a h5b, h5a, h5b⟩
      · rw [applyCheck5_skip_nobest t _ h5b]
        exact Or.inr ⟨rfl, rfl, Or.inr (by omega),
          fun lo2 hi2 hs => Option.noConfusion hs, fun _ => rfl⟩
    · rw [applyCheck5_skip_pos t _ h5a]
      exact Or.inr ⟨rfl, rfl, Or.inl h5a,
        fun lo2 hi2 hs => Option.noConfusion hs, fun _ => rfl⟩
  · obtain ⟨hmem6, hlohi, hlo1, hhi1, mlo, mhi, hmlo, hmhi⟩ := ranges_inv e0 lo hi hE
    rw [applyCheck4_some _ lo hi hE]
    dsimp only
    have hbounds : ∀ lo2 hi2, (some (lo, hi) : Option (ℚ × ℚ)) = some (lo2, hi2) →
        lo2 ≤ max lo (min hi s') ∧ max lo (min hi s') ≤ hi2 := by
      intro lo2 hi2 hs
      rw [Option.some.injEq, Prod.mk.injEq] at hs
      obtain ⟨rfl, rfl⟩ := hs
      exact ⟨le_max_left _ _, max_le hlohi (min_le_left _ _)⟩
    by_cases h5a : countEmotionMatches (pyTokenize t) e0 = 0
    · by_cases h5b : 0 < countEmotionMatches (pyTokenize t) (dominantOf t)
      · exact Or.inl ⟨applyCheck5_fire t _ h5a h5b, h5a, h5b⟩
      · rw [applyCheck5_skip_nobest t _ h5b]
        exact Or.inr ⟨rfl, rfl, Or.inr (by omega), hbounds, fun hc => Option.noConfusion hc⟩
    · rw [applyCheck5_skip_pos t _ h5a]
      exact Or.inr ⟨rfl, rfl, Or.inl h5a, hbounds, fun hc => Option.noConfusion hc⟩

/-- The `or`-coalesced, lowercased input emotion of `validate_and_fix`. -/
def inputEmotion (m : MoodResult) : String :=
  pyLower (if m.dominant_emotion = "" then "neutral" else m.dominant_emotion)

/-- The `[-1, 1]`-clamped input score of `validate_and_fix`. -/
def inputScore (m : MoodResult) : ℚ :=
  max (-1.0) (min 1.0 m.mood_score)

/-- The emotion/score/confidence part of `validate_and_fix` (CHECKs 1-5,
before the final rounding and the keyword rebuild). -/
def pipelineCore (m : MoodResult) (t : String) : String × ℚ × ℚ :=
  applyCheck5 t (applyCheck4 (applyCheck23 t
    (applyCheck1 t (inputEmotion m, inputScore m, m.confidence))))

theorem validate_and_fix_eq (m : MoodResult) (t : String) :
    validate_and_fix m t =
      { mood_score := roundTo 4 (pipelineCore m t).2.1
        dominant_emotion := (pipelineCore m t).1
        confidence := roundTo 4 (pipelineCore m t).2.2
        keywords := extractQualityKeywords t (pipelineCore m t).1 } := rfl

theorem inputEmotion_lower_fixed (m : MoodResult) :
    pyLower (inputEmotion m) = inputEmotion m :=
  pyLower_idem _

theorem inputEmotion_ne_empty (m : MoodResult) : inputEmotion m ≠ "" := by
  apply pyLower_ne_empty
  split_ifs with h
  · decide
  · exact h

theorem inputScore_mem (m : MoodResult) : -1 ≤ inputScore m ∧ inputScore m ≤ 1 := by
  constructor
  · exact le_max_of_le_left (by norm_num)
  · exact max_le (by norm_num) ((min_le_left _ _).trans (by norm_num))

/-- Master case analysis for `validate_and_fix`'s CHECK 1-5 chain: the final
triple is either exactly the re-detector's output, or it keeps the coalesced
input emotion and the raw input confidence, in which case the confidence was
at least `0.5`, the evidence override did not fire, and the score was clamped
into the emotion's range (or is the `[-1,1]`-clamped input score when the
emotion has no range entry and no sign rule applies). -/
theorem pipelineCore_cases (m : MoodResult) (t : String) :
    pipelineCore m t = detectEmotionFromText t ∨
    ((pipelineCore m t).1 = inputEmotion m ∧
     (pipelineCore m t).2.2 = m.confidence ∧
     0.5 ≤ m.confidence ∧
     (countEmotionMatches (pyTokenize t) (inputEmotion m) ≠ 0 ∨
      countEmotionMatches (pyTokenize t) (dominantOf t) = 0) ∧
     (∀ lo hi, EMOTION_SCORE_RANGES (inputEmotion m) = some (lo, hi) →
        lo ≤ (pipelineCore m t).2.1 ∧ (pipelineCore m t).2.1 ≤ hi) ∧
     (EMOTION_SCORE_RANGES (inputEmotion m) = none →
        (pipelineCore m t).2.1 = inputScore m)) := by
  rw [pipelineCore]
  by_cases hc1 : m.confidence < 0.5
  · rw [applyCheck1_fire t _ hc1, applyCheck23_eq_self t _, applyCheck45_detect]
    · exact Or.inl rfl
    all_goals {
      obtain ⟨_, _, _, ⟨lo, hi, hr, hsl, hsh⟩, _⟩ := detect_spec t
      obtain ⟨hs1, hs2, hs3⟩ := range_sign_facts _ lo hi _ hr hsl hsh
      first | exact hs1 | exact hs2 | exact hs3
    }
  · have hconf : (0.5 : ℚ) ≤ m.confidence := not_lt.mp hc1
    rw [applyCheck1_skip t _ hc1]
    rw [show applyCheck23 t (inputEmotion m, inputScore m, m.confidence) =
      (if inputEmotion m ∈ positive_emotions ∧ inputScore m < 0
        then (inputEmotion m, |inputScore m|, m.confidence)
        else if inputEmotion m ∈ negative_emotions ∧ inputScore m > 0
          then (inputEmotion m, -|inputScore m|, m.confidence)
          else if inputEmotion m = "neutral" ∧ |inputScore m| > 0.25
            then detectEmotionFromText t
            else (inputEmotion m, inputScore m, m.confidence)) from rfl]
    split_ifs with hA hB hC
    · rcases check45_cases t (inputEmotion m) (|inputScore m|) m.confidence with
        ⟨hd, _⟩ | ⟨h1, h2, h3, h4, h5⟩
      · exact Or.inl hd
      · exact Or.inr ⟨h1, h2, hconf, h3, h4,
          fun hc => absurd hc (pos_has_range _ hA.1)⟩
    · rcases check45_cases t (inputEmotion m) (-|inputScore m|) m.confidence with
        ⟨hd, _⟩ | ⟨h1, h2, h3, h4, h5⟩
      · exact Or.inl hd
      · exact Or.inr ⟨h1, h2, hconf, h3, h4,
          fun hc => absurd hc (neg_has_range _ hB.1)⟩
    · rw [applyCheck45_detect]
      exact Or.inl rfl
    · rcases check45_cases t (inputEmotion m) (inputScore m) m.confidence with
        ⟨hd, _⟩ | ⟨h1, h2, h3, h4, h5⟩
      · exact Or.inl hd
      · exact Or.inr ⟨h1, h2, hconf, h3, h4, h5⟩

theorem ranges_some_of_mem (e : String) (h : e ∈ allEmotions) :
    ∃ lo hi, EMOTION_SCORE_RANGES e = some (lo, hi) := by
  simp only [allEmotions, List.mem_cons, List.not_mem_nil, or_false] at h
  rcases h with rfl | rfl | rfl | rfl | rfl | rfl
  · exact ⟨0.2, 1.0, rfl⟩
  · exact ⟨-0.9, -0.2, rfl⟩
  · exact ⟨-0.8, -0.1, rfl⟩
  · exact ⟨0.1, 0.6, rfl⟩
  · exact ⟨-0.9, -0.3, rfl⟩
  · exact ⟨-0.15, 0.15, rfl⟩

theorem roundTo4_mem_of_range (lo hi x : ℚ) (mlo mhi : ℤ)
    (hmlo : lo * 10 ^ 2 = (mlo : ℚ)) (hmhi : hi * 10 ^ 2 = (mhi : ℚ))
    (h1 : lo ≤ x) (h2 : x ≤ hi) :
    lo ≤ roundTo 4 x ∧ roundTo 4 x ≤ hi :=
  ⟨roundTo_ge 4 x lo (mlo * 100) (by push_cast; linear_combination (100 : ℚ) * hmlo) h1,
   roundTo_le 4 x hi (mhi * 100) (by push_cast; linear_combination (100 : ℚ) * hmhi) h2⟩

theorem triple_eta (x : String × ℚ × ℚ) : (x.1, x.2.1, x.2.2) = x := rfl

theorem pipelineCore_conf_ge (m : MoodResult) (t : String) :
    0.5 ≤ (pipelineCore m t).2.2 := by
  rcases pipelineCore_cases m t with hdet | ⟨_, h2, h3, _⟩
  · rw [hdet]
    exact (detect_spec t).2.2.2.2.1
  · rw [h2]
    exact h3

theorem pipelineCore_score_bounds (m : MoodResult) (t : String) :
    -1 ≤ (pipelineCore m t).2.1 ∧ (pipelineCore m t).2.1 ≤ 1 := by
  rcases pipelineCore_cases m t with hdet | ⟨h1, h2, h3, h4, h5, h6⟩
  · rw [hdet]
    obtain ⟨_, _, _, ⟨lo, hi, hr, hsl, hsh⟩, _⟩ := detect_spec t
    obtain ⟨_, _, hlo1, hhi1, _⟩ := ranges_inv _ lo hi hr
    exact ⟨le_trans hlo1 hsl, le_trans hsh hhi1⟩
  · rcases hE : EMOTION_SCORE_RANGES (inputEmotion m) with _ | ⟨lo, hi⟩
    · rw [h6 hE]
      exact inputScore_mem m
    · obtain ⟨hb1, hb2⟩ := h5 lo hi hE
      obtain ⟨_, _, hlo1, hhi1, _⟩ := ranges_inv _ lo hi hE
      exact ⟨le_trans hlo1 hb1, le_trans hb2 hhi1⟩

theorem pipelineCore_emotion_facts (m : MoodResult) (t : String) :
    pyLower (pipelineCore m t).1 = (pipelineCore m t).1 ∧ (pipelineCore m t).1 ≠ "" := by
  rcases pipelineCore_cases m t with hdet | ⟨h1, _⟩
  · rw [hdet]
    obtain ⟨_, hlow, hne, _⟩ := detect_spec t
    exact ⟨hlow, hne⟩
  · rw [h1]
    exact ⟨inputEmotion_lower_fixed m, inputEmotion_ne_empty m⟩

/-- If the score respects the emotion's range entry (when there is one) and
the evidence override does not fire, CHECKs 2 through 5 leave a triple
unchanged. -/
theorem checks_skip (t : String) (e5 : String) (s5 c5 : ℚ)
    (hrange : ∀ lo hi, EMOTION_SCORE_RANGES e5 = some (lo, hi) → lo ≤ s5 ∧ s5 ≤ hi)
    (hcnt : countEmotionMatches (pyTokenize t) e5 ≠ 0 ∨
            countEmotionMatches (pyTokenize t) (dominantOf t) = 0) :
    applyCheck5 t (applyCheck4 (applyCheck23 t (e5, s5, c5))) = (e5, s5, c5) := by
  have hskip5 : applyCheck5 t (e5, s5, c5) = (e5, s5, c5) := by
    rcases hcnt with hcnt | hdom
    · exact applyCheck5_skip_pos t _ hcnt
    · exact applyCheck5_skip_nobest t _ (by omega)
  rcases hE : EMOTION_SCORE_RANGES e5 with _ | ⟨lo, hi⟩
  · have hnot6 : e5 ∉ allEmotions := by
      intro hmem
      obtain ⟨lo, hi, hsome⟩ := ranges_some_of_mem _ hmem
      rw [hE] at hsome
      cases hsome
    rw [applyCheck23_of_other t (e5, s5, c5)
          (fun hp => hnot6 (mem_positive_sub _ hp))
          (fun hn => hnot6 (mem_negative_sub _ hn))
          (fun hne3 => hnot6 (by rw [show e5 = "neutral" from hne3]; decide)),
        applyCheck4_none _ hE, hskip5]
  · obtain ⟨hbl, hbh⟩ := hrange lo hi hE
    obtain ⟨hs1, hs2, hs3⟩ := range_sign_facts e5 lo hi s5 hE hbl hbh
    rw [applyCheck23_eq_self t (e5, s5, c5) hs1 hs2 hs3,
        applyCheck4_eq_self _ lo hi hE hbl hbh, hskip5]

/-- Applying the CHECK 1-5 chain to the rounded output of a first
`validate_and_fix` run reproduces that output: every check skips. -/
theorem pipelineCore_second (m : MoodResult) (t : String) :
    pipelineCore (validate_and_fix m t) t =
      ((pipelineCore m t).1, roundTo 4 (pipelineCore m t).2.1,
        roundTo 4 (pipelineCore m t).2.2) := by
  have hb := pipelineCore_score_bounds m t
  have hcge := pipelineCore_conf_ge m t
  have hef := pipelineCore_emotion_facts m t
  have htrip : (inputEmotion (validate_and_fix m t), inputScore (validate_and_fix m t),
      (validate_and_fix m t).confidence) =
      ((pipelineCore m t).1, roundTo 4 (pipelineCore m t).2.1,
        roundTo 4 (pipelineCore m t).2.2) := by
    have h1 : inputEmotion (validate_and_fix m t) = (pipelineCore m t).1 := by
      rw [inputEmotion,
        show (validate_and_fix m t).dominant_emotion = (pipelineCore m t).1 from rfl,
        if_neg hef.2]
      exact hef.1
    have h2 : inputScore (validate_and_fix m t) = roundTo 4 (pipelineCore m t).2.1 := by
      rw [inputScore,
        show (validate_and_fix m t).mood_score = roundTo 4 (pipelineCore m t).2.1 from rfl,
        show (1.0 : ℚ) = 1 by norm_num]
      have hge := roundTo_ge 4 (pipelineCore m t).2.1 (-1) (-10000) (by norm_num) hb.1
      have hle := roundTo_le 4 (pipelineCore m t).2.1 1 10000 (by norm_num) hb.2
      rw [min_eq_right hle]
      exact max_eq_right hge
    rw [h1, h2]
    rfl
  have hcskip : ¬(validate_and_fix m t).confidence < 0.5 := by
    rw [show (validate_and_fix m t).confidence = roundTo 4 (pipelineCore m t).2.2 from rfl]
    exact not_lt.mpr (roundTo_ge 4 _ 0.5 5000 (by norm_num) hcge)
  rw [pipelineCore, htrip, applyCheck1_skip t _ (by exact hcskip)]
  rcases pipelineCore_cases m t with hdet | ⟨h1, h2, h3, h4, h5, h6⟩
  · obtain ⟨hmem, hlow, hne2, ⟨lo, hi, hr, hsl, hsh⟩, hcf, hr4s, hr4c, _, _⟩ := detect_spec t
    have hs4 : roundTo 4 (pipelineCore m t).2.1 = (pipelineCore m t).2.1 := by
      rw [hdet]; exact hr4s
    have hc4 : roundTo 4 (pipelineCore m t).2.2 = (pipelineCore m t).2.2 := by
      rw [hdet]; exact hr4c
    rw [hs4, hc4, triple_eta (pipelineCore m t), hdet]
    exact detect_fixed t
  · refine checks_skip t (pipelineCore m t).1 (roundTo 4 (pipelineCore m t).2.1)
      (roundTo 4 (pipelineCore m t).2.2) ?_ ?_
    · intro lo hi hsome
      rw [h1] at hsome
      obtain ⟨hbl, hbh⟩ := h5 lo hi hsome
      obtain ⟨_, _, _, _, mlo, mhi, hmlo, hmhi⟩ := ranges_inv _ lo hi hsome
      exact roundTo4_mem_of_range lo hi _ mlo mhi hmlo hmhi hbl hbh
    · rw [h1]
      exact h4

theorem pipelineCore_low_conf (m : MoodResult) (t : String) (h : m.confidence < 0.5) :
    pipelineCore m t = detectEmotionFromText t := by
  have h' : ((inputEmotion m, inputScore m, m.confidence) : String × ℚ × ℚ).2.2 < 0.5 := h
  rw [pipelineCore, applyCheck1_fire t _ h']
  obtain ⟨_, _, _, ⟨lo, hi, hr, hsl, hsh⟩, _⟩ := detect_spec t
  obtain ⟨hs1, hs2, hs3⟩ := range_sign_facts _ lo hi _ hr hsl hsh
  rw [applyCheck23_eq_self t _ hs1 hs2 hs3]
  exact applyCheck45_detect t

theorem inputEmotion_of_mem (m : MoodResult) (h : m.dominant_emotion ∈ allEmotions) :
    inputEmotion m = m.dominant_emotion := by
  simp only [allEmotions, List.mem_cons, List.not_mem_nil, or_false] at h
  rw [inputEmotion]
  rcases h with he | he | he | he | he | he <;> rw [he] <;> decide

theorem range_polarity (e : String) (lo hi : ℚ)
    (hr : EMOTION_SCORE_RANGES e = some (lo, hi)) :
    (e ∈ positive_emotions → 0 ≤ lo) ∧ (e ∈ negative_emotions → hi ≤ 0) ∧
    (e = "neutral" → -0.15 ≤ lo ∧ hi ≤ 0.15) := by
  refine ⟨fun hp => ?_, fun hn => ?_, fun hz => ?_⟩
  · simp only [positive_emotions, List.mem_cons, List.not_mem_nil, or_false] at hp
    rcases hp with rfl | rfl <;>
    · simp only [EMOTION_SCORE_RANGES, Option.some.injEq, Prod.mk.injEq] at hr
      obtain ⟨h1, h2⟩ := hr
      subst h1
      norm_num
  · simp only [negative_emotions, List.mem_cons, List.not_mem_nil, or_false] at hn
    rcases hn with rfl | rfl | rfl <;>
    · simp only [EMOTION_SCORE_RANGES, Option.some.injEq, Prod.mk.injEq] at hr
      obtain ⟨h1, h2⟩ := hr
      subst h2
      norm_num
  · subst hz
    simp only [EMOTION_SCORE_RANGES, Option.some.injEq, Prod.mk.injEq] at hr
    obtain ⟨h1, h2⟩ := hr
    subst h1
    subst h2
    norm_num

theorem validate_emotion_mem (m : MoodResult) (t : String)
    (h : m.dominant_emotion ∈ allEmotions) :
    (validate_and_fix m t).dominant_emotion ∈ allEmotions := by
  rw [show (validate_and_fix m t).dominant_emotion = (pipelineCore m t).1 from rfl]
  rcases pipelineCore_cases m t with hdet | ⟨h1, _⟩
  · rw [hdet]
    exact (detect_spec t).1
  · rw [h1, inputEmotion_of_mem m h]
    exact h

/-! ## Keyword extraction lemmas -/

theorem EMOTION_KEYWORDS_nodup (e : String) : (EMOTION_KEYWORDS e).Nodup := by
  rw [EMOTION_KEYWORDS.eq_def]
  split <;> decide

theorem journal_entry_not_kw (e : String) :
    "journal" ∉ EMOTION_KEYWORDS e ∧ "entry" ∉ EMOTION_KEYWORDS e := by
  rw [EMOTION_KEYWORDS.eq_def]
  split <;> exact ⟨by decide, by decide⟩

theorem keyword_build_spec (emoAll tokens stop : List String) (hnodup : emoAll.Nodup) :
    ((pdedupAux [] (emoAll.filter (fun kw => decide (kw ∈ tokens)) ++
        tokens.filter (fun w => decide (4 < w.length) && w.data.all Char.isAlpha &&
          decide (w ∉ stop) &&
          decide (w ∉ emoAll.filter (fun kw => decide (kw ∈ tokens)))))).take 5).Nodup ∧
    ((pdedupAux [] (emoAll.filter (fun kw => decide (kw ∈ tokens)) ++
        tokens.filter (fun w => decide (4 < w.length) && w.data.all Char.isAlpha &&
          decide (w ∉ stop) &&
          decide (w ∉ emoAll.filter (fun kw => decide (kw ∈ tokens)))))).take 5).length ≤ 5 ∧
    ∃ ks cs,
      (pdedupAux [] (emoAll.filter (fun kw => decide (kw ∈ tokens)) ++
        tokens.filter (fun w => decide (4 < w.length) && w.data.all Char.isAlpha &&
          decide (w ∉ stop) &&
          decide (w ∉ emoAll.filter (fun kw => decide (kw ∈ tokens)))))).take 5 = ks ++ cs ∧
      (∀ w ∈ ks, w ∈ emoAll ∧ w ∈ tokens) ∧
      (∀ w ∈ cs, w ∈ tokens ∧ w ∉ stop ∧
        w ∉ emoAll.filter (fun kw => decide (kw ∈ tokens))) := by
  have hemo_nodup : (emoAll.filter (fun kw => decide (kw ∈ tokens))).Nodup :=
    hnodup.filter _
  have hdisj : ∀ x ∈ tokens.filter (fun w => decide (4 < w.length) &&
      w.data.all Char.isAlpha && decide (w ∉ stop) &&
      decide (w ∉ emoAll.filter (fun kw => decide (kw ∈ tokens)))),
      x ∉ emoAll.filter (fun kw => decide (kw ∈ tokens)) := by
    intro x hx
    have := List.mem_filter.mp hx
    simp only [Bool.and_eq_true, decide_eq_true_eq] at this
    exact this.2.2
  obtain ⟨s', hs'⟩ := pdedupAux_append _ _ [] hemo_nodup
    (fun x _ => List.not_mem_nil x) hdisj
  rw [hs', List.take_append_eq_append_take]
  have hks_mem : ∀ w ∈ (emoAll.filter (fun kw => decide (kw ∈ tokens))).take 5,
      w ∈ emoAll ∧ w ∈ tokens := by
    intro w hw
    have hw2 := List.take_subset _ _ hw
    have := List.mem_filter.mp hw2
    simp only [decide_eq_true_eq] at this
    exact this
  have hcs_mem : ∀ w ∈ (pdedupAux s'
      (tokens.filter (fun w => decide (4 < w.length) && w.data.all Char.isAlpha &&
        decide (w ∉ stop) &&
        decide (w ∉ emoAll.filter (fun kw => decide (kw ∈ tokens)))))).take
          (5 - (emoAll.filter (fun kw => decide (kw ∈ tokens))).length),
      w ∈ tokens ∧ w ∉ stop ∧ w ∉ emoAll.filter (fun kw => decide (kw ∈ tokens)) := by
    intro w hw
    have hw2 := List.take_subset _ _ hw
    have hw3 := (pdedupAux_mem _ _ _ hw2).1
    have := List.mem_filter.mp hw3
    simp only [Bool.and_eq_true, decide_eq_true_eq] at this
    exact ⟨this.1, this.2.1.2, this.2.2⟩
  refine ⟨?_, ?_, _, _, rfl, hks_mem, hcs_mem⟩
  · rw [List.nodup_append]
    refine ⟨hemo_nodup.sublist (List.take_sublist _ _),
      (pdedupAux_nodup _ _).sublist (List.take_sublist _ _), ?_⟩
    intro w hw hw2
    have h1 := List.take_subset _ _ hw
    exact (hcs_mem w hw2).2.2 h1
  · rw [List.length_append, List.length_take, List.length_take]
    omega

theorem extract_spec (t e : String) :
    (extractQualityKeywords t e).Nodup ∧
    1 ≤ (extractQualityKeywords t e).length ∧
    (extractQualityKeywords t e).length ≤ 5 ∧
    (∃ ks cs, extractQualityKeywords t e = ks ++ cs ∧
      (∀ w ∈ ks, w ∈ EMOTION_KEYWORDS e ∧ w ∈ pyTokenize t) ∧
      (∀ w ∈ cs, w ∉ EMOTION_KEYWORDS e)) ∧
    (∀ w ∈ extractQualityKeywords t e, w ∈ EMOTION_KEYWORDS e ∨ w ∉ stop_words) := by
  obtain ⟨hnd, hlen, ks, cs, heq, hks, hcs⟩ :=
    keyword_build_spec (EMOTION_KEYWORDS e) (pyTokenize t) stop_words
      (EMOTION_KEYWORDS_nodup e)
  simp only [extractQualityKeywords]
  split_ifs with hfin
  · refine ⟨by decide, by decide, by decide,
      ⟨[], ["journal", "entry"], rfl, by simp, ?_⟩, ?_⟩
    · intro w hw
      rcases List.mem_cons.mp hw with rfl | hw2
      · exact (journal_entry_not_kw e).1
      · rcases List.mem_cons.mp hw2 with rfl | hw3
        · exact (journal_entry_not_kw e).2
        · cases hw3
    · intro w hw
      rcases List.mem_cons.mp hw with rfl | hw2
      · exact Or.inr (by decide)
      · rcases List.mem_cons.mp hw2 with rfl | hw3
        · exact Or.inr (by decide)
        · cases hw3
  · have hcs' : ∀ w ∈ cs, w ∉ EMOTION_KEYWORDS e := by
      intro w hw hkw
      obtain ⟨hw1, hw2, hw3⟩ := hcs w hw
      exact hw3 (List.mem_filter.mpr ⟨hkw, by simp [hw1]⟩)
    refine ⟨hnd, ?_, hlen, ⟨ks, cs, heq, hks, hcs'⟩, ?_⟩
    · have := List.length_pos.mpr hfin
      omega
    · intro w hw
      rw [heq] at hw
      rcases List.mem_append.mp hw with hw2 | hw2
      · exact Or.inl (hks w hw2).1
      · exact Or.inr (hcs w hw2).2.1

/-! ## Concrete evaluation lemmas -/

theorem detect_eval (t : String) (e : String) (k : ℕ) (lo hi s c : ℚ)
    (hsum : ¬(nonNeutralEmotions.map (countEmotionMatches (pyTokenize t))).sum = 0)
    (hd : dominantOf t = e)
    (hk : countEmotionMatches (pyTokenize t) e = k)
    (hr : EMOTION_SCORE_RANGES e = some (lo, hi))
    (hs : roundTo 2 (max lo (min hi (lo + (hi - lo) * min 1.0 ((k : ℚ) / 5.0)))) = s)
    (hc : min 0.90 (0.55 + (k : ℚ) * 0.08) = c) :
    detectEmotionFromText t = (e, s, c) := by
  have hrange : rangeOf t = (lo, hi) := by
    rw [rangeOf, hd, hr]
    rfl
  rw [detect_eq_pos_case t hsum, hd, hrange, hk]
  dsimp only
  rw [hs, hc]

theorem fallbackTriple_eval_neg (t : String) (e : String) (k : ℕ) (s c : ℚ)
    (hsum : ¬(nonNeutralEmotions.map (fallbackMatchCount (fallbackWordList t))).sum = 0)
    (hd : argmaxFirst (fallbackMatchCount (fallbackWordList t)) "happy"
      ["sad", "anxious", "calm", "angry"] = e)
    (hk : fallbackMatchCount (fallbackWordList t) e = k)
    (hne1 : e ≠ "happy") (hne2 : e ≠ "calm")
    (hmem : e ∈ (["sad", "anxious", "angry"] : List String))
    (hs : max (-0.85) (-((k : ℚ) * 0.25)) = s)
    (hc : min 0.85 (0.65 + (k : ℚ) * 0.1) = c) :
    fallbackTriple t = (e, s, c) := by
  rw [fallbackTriple]
  simp only
  rw [if_neg hsum, hd, if_neg hne1, if_neg hne2, if_pos hmem, hk, hs, hc]

/-! ## Claim theorems -/

/-- C1: for every candidate whose emotion is one of the six closed-set
values and every original text, the MoodResult returned by
`validate_and_fix` has a score lying within the emotion-range table entry of
its (final) emotion, and the score's sign matches that emotion's polarity
class: happy/calm nonnegative, sad/anxious/angry nonpositive, neutral within
`[-0.15, 0.15]`. -/
theorem C1_reconcile_sign_and_range (m : MoodResult) (t : String)
    (h : m.dominant_emotion ∈ allEmotions) :
    ∃ lo hi,
      EMOTION_SCORE_RANGES (validate_and_fix m t).dominant_emotion = some (lo, hi) ∧
      lo ≤ (validate_and_fix m t).mood_score ∧
      (validate_and_fix m t).mood_score ≤ hi ∧
      ((validate_and_fix m t).dominant_emotion ∈ positive_emotions →
        0 ≤ (validate_and_fix m t).mood_score) ∧
      ((validate_and_fix m t).dominant_emotion ∈ negative_emotions →
        (validate_and_fix m t).mood_score ≤ 0) ∧
      ((validate_and_fix m t).dominant_emotion = "neutral" →
        |(validate_and_fix m t).mood_score| ≤ 0.15) := by
  rw [show (validate_and_fix m t).dominant_emotion = (pipelineCore m t).1 from rfl,
      show (validate_and_fix m t).mood_score = roundTo 4 (pipelineCore m t).2.1 from rfl]
  have hrange : ∃ lo hi, EMOTION_SCORE_RANGES (pipelineCore m t).1 = some (lo, hi) ∧
      lo ≤ (pipelineCore m t).2.1 ∧ (pipelineCore m t).2.1 ≤ hi := by
    rcases pipelineCore_cases m t with hdet | ⟨h1, _, _, _, h5, _⟩
    · rw [hdet]
      exact (detect_spec t).2.2.2.1
    · obtain ⟨lo, hi, hsome⟩ := ranges_some_of_mem (inputEmotion m)
        (by rw [inputEmotion_of_mem m h]; exact h)
      obtain ⟨hb1, hb2⟩ := h5 lo hi hsome
      exact ⟨lo, hi, by rw [h1]; exact hsome, hb1, hb2⟩
  obtain ⟨lo, hi, hr, hb1, hb2⟩ := hrange
  obtain ⟨_, _, _, _, mlo, mhi, hmlo, hmhi⟩ := ranges_inv _ lo hi hr
  obtain ⟨hc1, hc2⟩ := roundTo4_mem_of_range lo hi _ mlo mhi hmlo hmhi hb1 hb2
  obtain ⟨hp, hn, hz⟩ := range_polarity _ lo hi hr
  exact ⟨lo, hi, hr, hc1, hc2,
    fun hpm => le_trans (hp hpm) hc1,
    fun hnm => le_trans hc2 (hn hnm),
    fun hzm => abs_le.mpr ⟨le_trans (by linarith [(hz hzm).1]) hc1,
      le_trans hc2 (hz hzm).2⟩⟩

/-- Witness for C1 at a concrete candidate and text. -/
theorem C1_witness :
    (⟨0.5, "happy", 0.9, []⟩ : MoodResult).dominant_emotion ∈ allEmotions ∧
    ∃ lo hi,
      EMOTION_SCORE_RANGES
        (validate_and_fix ⟨0.5, "happy", 0.9, []⟩ "okay day").dominant_emotion =
          some (lo, hi) ∧
      lo ≤ (validate_and_fix ⟨0.5, "happy", 0.9, []⟩ "okay day").mood_score ∧
      (validate_and_fix ⟨0.5, "happy", 0.9, []⟩ "okay day").mood_score ≤ hi ∧
      ((validate_and_fix ⟨0.5, "happy", 0.9, []⟩ "okay day").dominant_emotion ∈
          positive_emotions →
        0 ≤ (validate_and_fix ⟨0.5, "happy", 0.9, []⟩ "okay day").mood_score) ∧
      ((validate_and_fix ⟨0.5, "happy", 0.9, []⟩ "okay day").dominant_emotion ∈
          negative_emotions →
        (validate_and_fix ⟨0.5, "happy", 0.9, []⟩ "okay day").mood_score ≤ 0) ∧
      ((validate_and_fix ⟨0.5, "happy", 0.9, []⟩ "okay day").dominant_emotion =
          "neutral" →
        |(validate_and_fix ⟨0.5, "happy", 0.9, []⟩ "okay day").mood_score| ≤ 0.15) :=
  ⟨by decide, C1_reconcile_sign_and_range ⟨0.5, "happy", 0.9, []⟩ "okay day" (by decide)⟩

/-- C2: `validate_and_fix` is idempotent: reconciling an already reconciled
result (against the same text) changes none of the four fields. -/
theorem C2_reconcile_idempotent (m : MoodResult) (t : String) :
    validate_and_fix (validate_and_fix m t) t = validate_and_fix m t := by
  rw [validate_and_fix_eq (validate_and_fix m t) t, pipelineCore_second m t,
      validate_and_fix_eq m t]
  dsimp only
  rw [roundTo_grid, roundTo_grid]

/-- C6: a candidate with confidence below `0.5` is discarded entirely:
emotion, score and confidence of the reconciled result all equal the
re-detector's output on the original text. -/
theorem C6_low_confidence_replaced (m : MoodResult) (t : String)
    (h : m.confidence < 0.5) :
    (validate_and_fix m t).dominant_emotion = (detectEmotionFromText t).1 ∧
    (validate_and_fix m t).mood_score = (detectEmotionFromText t).2.1 ∧
    (validate_and_fix m t).confidence = (detectEmotionFromText t).2.2 := by
  have hcore := pipelineCore_low_conf m t h
  obtain ⟨_, _, _, _, _, hr4s, hr4c, _, _⟩ := detect_spec t
  refine ⟨?_, ?_, ?_⟩
  · rw [show (validate_and_fix m t).dominant_emotion = (pipelineCore m t).1 from rfl, hcore]
  · rw [show (validate_and_fix m t).mood_score = roundTo 4 (pipelineCore m t).2.1 from rfl,
        hcore, hr4s]
  · rw [show (validate_and_fix m t).confidence = roundTo 4 (pipelineCore m t).2.2 from rfl,
        hcore, hr4c]

/-- Witness for C6 at a concrete candidate and text. -/
theorem C6_witness :
    (⟨0.2, "happy", 0.3, []⟩ : MoodResult).confidence < 0.5 ∧
    ((validate_and_fix ⟨0.2, "happy", 0.3, []⟩ "worried and stressed out").dominant_emotion =
        (detectEmotionFromText "worried and stressed out").1 ∧
     (validate_and_fix ⟨0.2, "happy", 0.3, []⟩ "worried and stressed out").mood_score =
        (detectEmotionFromText "worried and stressed out").2.1 ∧
     (validate_and_fix ⟨0.2, "happy", 0.3, []⟩ "worried and stressed out").confidence =
        (detectEmotionFromText "worried and stressed out").2.2) :=
  ⟨by norm_num, C6_low_confidence_replaced ⟨0.2, "happy", 0.3, []⟩
    "worried and stressed out" (by norm_num)⟩

/-- C4: an input tuple with an emotion label outside the closed six-value
set is corrected in place: the coercion step of `_parse_model_json` yields
an emotion inside the set (defaulting to `"neutral"` whenever even the
lowercased label is unrecognized), and the reconciled result's emotion is
one of the six closed-set values.  Both functions are total, so no error is
raised on any such input. -/
theorem C4_unrecognized_emotion_defaulted (score conf : ℚ) (kws : List String)
    (e t : String) (h : e ∉ valid_emotions) :
    (parseModelFields score e conf kws).dominant_emotion ∈ valid_emotions ∧
    (pyLower e ∉ valid_emotions →
      (parseModelFields score e conf kws).dominant_emotion = "neutral") ∧
    (validate_and_fix (parseModelFields score e conf kws) t).dominant_emotion ∈
      valid_emotions := by
  have hpe : (parseModelFields score e conf kws).dominant_emotion =
      (if pyLower e ∈ valid_emotions then pyLower e else "neutral") := rfl
  have hvm : valid_emotions = allEmotions := rfl
  refine ⟨?_, ?_, ?_⟩
  · rw [hpe]
    split_ifs with hh
    · exact hh
    · decide
  · intro hnl
    rw [hpe, if_neg hnl]
  · have hmem : (parseModelFields score e conf kws).dominant_emotion ∈ allEmotions := by
      rw [hpe]
      split_ifs with hh
      · rw [← hvm]
        exact hh
      · decide
    rw [hvm]
    exact validate_emotion_mem _ t hmem

/-- Witness for C4 at a concrete unrecognized label. -/
theorem C4_witness :
    ("excited" : String) ∉ valid_emotions ∧
    ((parseModelFields 0.7 "excited" 0.8 ["excited"]).dominant_emotion ∈ valid_emotions ∧
     (pyLower "excited" ∉ valid_emotions →
       (parseModelFields 0.7 "excited" 0.8 ["excited"]).dominant_emotion = "neutral") ∧
     (validate_and_fix (parseModelFields 0.7 "excited" 0.8 ["excited"])
        "so excited today").dominant_emotion ∈ valid_emotions) :=
  ⟨by decide, C4_unrecognized_emotion_defaulted 0.7 0.8 ["excited"] "excited"
    "so excited today" (by decide)⟩

/-- C9: empty or whitespace-only input short-circuits `analyze_entry` to the
neutral sentinel `(0.0, "neutral", 0.5, ["entry"])` without contacting the
external service, whatever that service would have answered. -/
theorem C9_empty_input_neutral (svc : ServiceOutcome) (text : String)
    (h : ∀ c ∈ text.data, isPyWspace c = true) :
    analyzeEntry svc text =
      ({ mood_score := 0.0, dominant_emotion := "neutral", confidence := 0.5,
         keywords := ["entry"] }, false) := by
  have hstrip : pyStripWs text = "" := by
    have h1 : text.data.dropWhile (isPyWspace ·) = [] :=
      List.dropWhile_eq_nil_iff.mpr h
    rw [pyStripWs, h1]
    rfl
  rw [analyzeEntry.eq_def, if_pos (Or.inr hstrip)]
  rfl

/-- Witness for C9 at the empty string and a whitespace-only string. -/
theorem C9_witness :
    (∀ c ∈ ("" : String).data, isPyWspace c = true) ∧
    (∀ c ∈ ("   " : String).data, isPyWspace c = true) ∧
    analyzeEntry ServiceOutcome.failure "" =
      ({ mood_score := 0.0, dominant_emotion := "neutral", confidence := 0.5,
         keywords := ["entry"] }, false) ∧
    analyzeEntry (ServiceOutcome.parsed 0.9 "happy" 0.9 ["great"]) "   " =
      ({ mood_score := 0.0, dominant_emotion := "neutral", confidence := 0.5,
         keywords := ["entry"] }, false) :=
  ⟨by decide, by decide,
   C9_empty_input_neutral ServiceOutcome.failure "" (by decide),
   C9_empty_input_neutral (ServiceOutcome.parsed 0.9 "happy" 0.9 ["great"]) "   "
     (by decide)⟩

theorem roundTo2_eval (x y : ℚ) (mz : ℤ) (hxy : x = y) (hy : y * 10 ^ 2 = (mz : ℚ)) :
    roundTo 2 x = y := by
  rw [hxy]
  exact roundTo_eq_of 2 y mz hy

/-- Evaluation of the re-detector on `"worried and stressed out"`:
2 whole-word anxious matches, interpolated score `-0.52`, confidence
`0.71`. -/
theorem detect_worried_eval :
    detectEmotionFromText "worried and stressed out" = ("anxious", -0.52, 0.71) :=
  detect_eval "worried and stressed out" "anxious" 2 (-0.8) (-0.1) (-0.52) 0.71
    (by decide) (by decide) (by decide) rfl
    (roundTo2_eval _ (-0.52) (-52) (by norm_num [max_def, min_def]) (by norm_num))
    (by norm_num [min_def])

/-- Evaluation of the analyzer's fallback on `"worried and stressed out"`:
score `-0.5 = -(2 * 0.25)`, confidence `0.85 = min(0.85, 0.65 + 2 * 0.1)`. -/
theorem fallback_worried_eval :
    fallbackAnalysis "worried and stressed out" =
      ⟨-0.5, "anxious", 0.85, ["worried", "stressed"]⟩ := by
  have htrip : fallbackTriple "worried and stressed out" = ("anxious", -0.5, 0.85) :=
    fallbackTriple_eval_neg "worried and stressed out" "anxious" 2 (-0.5) 0.85
      (by decide) (by decide) (by decide) (by decide) (by decide) (by decide)
      (by norm_num [max_def]) (by norm_num [min_def])
  rw [fallbackAnalysis, htrip]
  simp only [MoodResult.mk.injEq]
  exact ⟨trivial, trivial, trivial, by decide⟩

/-- C5 counterexample: the analyzer's fallback and the validator's
re-detector disagree on `"worried and stressed out"` (score `-0.5` versus
`-0.52`), so they are not the same function. -/
theorem C5_counterexample :
    (fallbackAnalysis "worried and stressed out").mood_score = -0.5 ∧
    (detectEmotionFromText "worried and stressed out").2.1 = -0.52 ∧
    (fallbackAnalysis "worried and stressed out").mood_score ≠
      (detectEmotionFromText "worried and stressed out").2.1 := by
  rw [fallback_worried_eval, detect_worried_eval]
  refine ⟨rfl, rfl, by norm_num⟩

/-- C5 amended: the fallback classifier `_fallback_analysis` and the
validator's re-detection routine (`_detect_emotion_from_text` with
`_extract_quality_keywords`) are two distinct rule-based implementations
with different lexicons and formulas; on `"worried and stressed out"` both
choose `"anxious"` and the keywords `["worried", "stressed"]`, but the
fallback returns score `-0.5` and confidence `0.85` while the re-detector
returns `-0.52` and `0.71`. -/
theorem C5_amended :
    fallbackAnalysis "worried and stressed out" =
      ⟨-0.5, "anxious", 0.85, ["worried", "stressed"]⟩ ∧
    detectEmotionFromText "worried and stressed out" = ("anxious", -0.52, 0.71) ∧
    extractQualityKeywords "worried and stressed out" "anxious" =
      ["worried", "stressed"] ∧
    (fallbackAnalysis "worried and stressed out").mood_score ≠
      (detectEmotionFromText "worried and stressed out").2.1 ∧
    (fallbackAnalysis "worried and stressed out").confidence ≠
      (detectEmotionFromText "worried and stressed out").2.2 := by
  refine ⟨fallback_worried_eval, detect_worried_eval, by decide, ?_, ?_⟩ <;>
    rw [fallback_worried_eval, detect_worried_eval] <;> norm_num

/-- C8 counterexample: on `"worried and stressed out"` the analyzer's
fallback classifier returns confidence `0.85`, not `0.55 + 0.08 * 2 = 0.71`,
and score `-0.5`, not the range-interpolated `-0.52`. -/
theorem C8_counterexample :
    (fallbackAnalysis "worried and stressed out").confidence = 0.85 ∧
    ((0.85 : ℚ) ≠ 0.55 + 0.08 * 2) ∧
    (fallbackAnalysis "worried and stressed out").mood_score = -0.5 ∧
    ((-0.5 : ℚ) ≠ -0.8 + (-0.1 - (-0.8)) * (2 / 5)) := by
  rw [fallback_worried_eval]
  refine ⟨rfl, by norm_num, rfl, by norm_num⟩

/-- C8 amended: the stated numbers hold for the validator's re-detector, not
for the analyzer's fallback: on `"worried and stressed out"` the re-detector
finds exactly 2 anxious whole-word matches and returns score
`range_min + (range_max - range_min) * (2/5) = -0.52` and confidence
`0.55 + 0.08 * 2 = 0.71`, with keywords `["worried", "stressed"]`. -/
theorem C8_amended :
    countEmotionMatches (pyTokenize "worried and stressed out") "anxious" = 2 ∧
    detectEmotionFromText "worried and stressed out" = ("anxious", -0.52, 0.71) ∧
    ((-0.52 : ℚ) = -0.8 + (-0.1 - (-0.8)) * (2 / 5)) ∧
    ((0.71 : ℚ) = min 0.90 (0.55 + 0.08 * 2)) ∧
    "worried" ∈ extractQualityKeywords "worried and stressed out" "anxious" ∧
    "stressed" ∈ extractQualityKeywords "worried and stressed out" "anxious" :=
  ⟨by decide, detect_worried_eval, by norm_num, by norm_num [min_def],
   by decide, by decide⟩

/-- C3 amended: the reconciled emotion either has nonzero whole-word keyword
evidence in the text, or is exactly the re-detector's output, or else NO
non-neutral emotion has any whole-word match in the text — in that last case
an evidence-free candidate label is carried over unchanged. -/
theorem C3_amended (m : MoodResult) (t : String) :
    0 < countEmotionMatches (pyTokenize t) (validate_and_fix m t).dominant_emotion ∨
    (validate_and_fix m t).dominant_emotion = (detectEmotionFromText t).1 ∨
    ∀ e ∈ nonNeutralEmotions, countEmotionMatches (pyTokenize t) e = 0 := by
  rw [show (validate_and_fix m t).dominant_emotion = (pipelineCore m t).1 from rfl]
  rcases pipelineCore_cases m t with hdet | ⟨h1, _, _, h4, _⟩
  · exact Or.inr (Or.inl (by rw [hdet]))
  · rcases h4 with hcnt | hdom
    · exact Or.inl (by rw [h1]; omega)
    · exact Or.inr (Or.inr (cnt_zero_of_dominant_zero t hdom))

/-- C3 counterexample: on the text `"nothing much xyz"` (no emotion keyword
matches at all) the candidate `(happy, 0.5, 0.9, [])` keeps the label
`"happy"` even though it has zero keyword evidence and the re-detector would
say `"neutral"`: the persisted emotion IS an evidence-free label carried
over from the candidate. -/
theorem C3_counterexample :
    (validate_and_fix ⟨0.5, "happy", 0.9, []⟩ "nothing much xyz").dominant_emotion =
      "happy" ∧
    countEmotionMatches (pyTokenize "nothing much xyz") "happy" = 0 ∧
    (detectEmotionFromText "nothing much xyz").1 = "neutral" := by
  have h1 : inputEmotion ⟨0.5, "happy", 0.9, []⟩ = "happy" := by decide
  have h2 : inputScore ⟨0.5, "happy", 0.9, []⟩ = 0.5 := by
    rw [inputScore]
    norm_num
  have hcore : pipelineCore ⟨0.5, "happy", 0.9, []⟩ "nothing much xyz" =
      ("happy", 0.5, 0.9) := by
    rw [pipelineCore, h1, h2,
        show (⟨0.5, "happy", 0.9, []⟩ : MoodResult).confidence = 0.9 from rfl,
        applyCheck1_skip _ _ (by norm_num)]
    exact checks_skip _ "happy" 0.5 0.9
      (fun lo hi hr => by
        simp only [EMOTION_SCORE_RANGES, Option.some.injEq, Prod.mk.injEq] at hr
        obtain ⟨hl, hh⟩ := hr
        subst hl
        subst hh
        norm_num)
      (Or.inr (by decide))
  refine ⟨?_, by decide, ?_⟩
  · rw [show (validate_and_fix ⟨0.5, "happy", 0.9, []⟩ "nothing much xyz").dominant_emotion =
      (pipelineCore ⟨0.5, "happy", 0.9, []⟩ "nothing much xyz").1 from rfl, hcore]
  · rw [detect_eq_zero_case _ (by decide)]

/-- C7 amended: reconciled keyword lists are duplicate-free, have between 1
and 5 entries, list the final emotion's lexicon keywords found in the text
before the other content words, and contain no stop word EXCEPT possibly
words that are themselves lexicon keywords of the final emotion (the
stop-word filter applies only to the generic content-word tier). -/
theorem C7_amended (m : MoodResult) (t : String) :
    (validate_and_fix m t).keywords.Nodup ∧
    1 ≤ (validate_and_fix m t).keywords.length ∧
    (validate_and_fix m t).keywords.length ≤ 5 ∧
    (∃ ks cs, (validate_and_fix m t).keywords = ks ++ cs ∧
      (∀ w ∈ ks, w ∈ EMOTION_KEYWORDS (validate_and_fix m t).dominant_emotion ∧
        w ∈ pyTokenize t) ∧
      (∀ w ∈ cs, w ∉ EMOTION_KEYWORDS (validate_and_fix m t).dominant_emotion)) ∧
    (∀ w ∈ (validate_and_fix m t).keywords,
      w ∈ EMOTION_KEYWORDS (validate_and_fix m t).dominant_emotion ∨
        w ∉ stop_words) := by
  rw [validate_and_fix_eq m t]
  dsimp only
  exact extract_spec t (pipelineCore m t).1

/-- C7 counterexample: on the candidate `(calm, 0.3, 0.9, [])` and text
`"still waters"` the reconciled keyword list is `["still", "waters"]`, and
`"still"` is in the validator's stop-word list: emotion-tier keywords bypass
the stop-word filter. -/
theorem C7_counterexample :
    (validate_and_fix ⟨0.3, "calm", 0.9, []⟩ "still waters").keywords =
      ["still", "waters"] ∧
    "still" ∈ stop_words := by
  have h1 : inputEmotion ⟨0.3, "calm", 0.9, []⟩ = "calm" := by decide
  have h2 : inputScore ⟨0.3, "calm", 0.9, []⟩ = 0.3 := by
    rw [inputScore]
    norm_num
  have hcore : pipelineCore ⟨0.3, "calm", 0.9, []⟩ "still waters" =
      ("calm", 0.3, 0.9) := by
    rw [pipelineCore, h1, h2,
        show (⟨0.3, "calm", 0.9, []⟩ : MoodResult).confidence = 0.9 from rfl,
        applyCheck1_skip _ _ (by norm_num)]
    exact checks_skip _ "calm" 0.3 0.9
      (fun lo hi hr => by
        simp only [EMOTION_SCORE_RANGES, Option.some.injEq, Prod.mk.injEq] at hr
        obtain ⟨hl, hh⟩ := hr
        subst hl
        subst hh
        norm_num)
      (Or.inl (by decide))
  refine ⟨?_, by decide⟩
  rw [show (validate_and_fix ⟨0.3, "calm", 0.9, []⟩ "still waters").keywords =
    extractQualityKeywords "still waters"
      (pipelineCore ⟨0.3, "calm", 0.9, []⟩ "still waters").1 from rfl, hcore]
  decide

/-- C10 amended: the reconciled confidence is always at least `0.5` (so a
reconciled result can never itself trigger the low-confidence re-detection);
it is the (4-digit-rounded) input confidence unless one of the re-detection
paths fired, in which case it is the re-detector's confidence — an input
confidence at or above `0.5` is therefore NOT always preserved. -/
theorem C10_amended (m : MoodResult) (t : String) :
    0.5 ≤ (validate_and_fix m t).confidence ∧
    ((validate_and_fix m t).confidence = roundTo 4 m.confidence ∨
     (validate_and_fix m t).confidence = (detectEmotionFromText t).2.2) ∧
    ¬(validate_and_fix m t).confidence < 0.5 := by
  have hcv : (validate_and_fix m t).confidence = roundTo 4 (pipelineCore m t).2.2 := rfl
  have hge : 0.5 ≤ (validate_and_fix m t).confidence := by
    rw [hcv]
    exact roundTo_ge 4 _ 0.5 5000 (by norm_num) (pipelineCore_conf_ge m t)
  refine ⟨hge, ?_, not_lt.mpr hge⟩
  rcases pipelineCore_cases m t with hdet | ⟨_, h2, _⟩
  · right
    rw [hcv, hdet]
    exact (detect_spec t).2.2.2.2.2.2.1
  · left
    rw [hcv, h2]

/-- C10 counterexample: the candidate `(neutral, 0.5, 0.9, [])` with text
`"sad"` has confidence `0.9 ≥ 0.5`, yet reconciliation replaces it with the
re-detector's `0.63` (the neutral-with-extreme-score rule fires): an input
confidence at or above `0.5` is not always preserved. -/
theorem C10_counterexample :
    (0.5 : ℚ) ≤ (⟨0.5, "neutral", 0.9, []⟩ : MoodResult).confidence ∧
    (validate_and_fix ⟨0.5, "neutral", 0.9, []⟩ "sad").confidence = 0.63 ∧
    (validate_and_fix ⟨0.5, "neutral", 0.9, []⟩ "sad").confidence ≠
      (⟨0.5, "neutral", 0.9, []⟩ : MoodResult).confidence := by
  have hdet : detectEmotionFromText "sad" = ("sad", -0.76, 0.63) :=
    detect_eval "sad" "sad" 1 (-0.9) (-0.2) (-0.76) 0.63
      (by decide) (by decide) (by decide) rfl
      (roundTo2_eval _ (-0.76) (-76) (by norm_num [max_def, min_def]) (by norm_num))
      (by norm_num [min_def])
  have h1 : inputEmotion ⟨0.5, "neutral", 0.9, []⟩ = "neutral" := by decide
  have h2 : inputScore ⟨0.5, "neutral", 0.9, []⟩ = 0.5 := by
    rw [inputScore]
    norm_num
  have hcore : pipelineCore ⟨0.5, "neutral", 0.9, []⟩ "sad" =
      detectEmotionFromText "sad" := by
    rw [pipelineCore, h1, h2,
        show (⟨0.5, "neutral", 0.9, []⟩ : MoodResult).confidence = 0.9 from rfl,
        applyCheck1_skip _ _ (by norm_num)]
    rw [show applyCheck23 "sad" ("neutral", (0.5 : ℚ), (0.9 : ℚ)) =
        detectEmotionFromText "sad" by
      rw [applyCheck23,
          if_neg (fun hc => absurd hc.1 (by decide)),
          if_neg (fun hc => absurd hc.1 (by decide)),
          if_pos ⟨rfl, by
            rw [show (("neutral", (0.5 : ℚ), (0.9 : ℚ)).2.1) = 0.5 from rfl,
                abs_of_pos (show (0 : ℚ) < 0.5 by norm_num)]
            norm_num⟩]]
    exact applyCheck45_detect "sad"
  have hconf : (validate_and_fix ⟨0.5, "neutral", 0.9, []⟩ "sad").confidence = 0.63 := by
    rw [show (validate_and_fix ⟨0.5, "neutral", 0.9, []⟩ "sad").confidence =
      roundTo 4 (pipelineCore ⟨0.5, "neutral", 0.9, []⟩ "sad").2.2 from rfl, hcore, hdet]
    exact roundTo_eq_of 4 _ 6300 (by norm_num)
  exact ⟨by norm_num, hconf, by rw [hconf]; norm_num⟩
